import Mathlib

/-!
Verification of the graticule (latitude/longitude reference grid) layer of the
`mapbox-plugins` repository, embedded from `src/components/GraticuleLayer.ts`
and `src/components/util.ts`.

Modelling conventions:
* JavaScript numbers are modelled by `ℚ` (exact arithmetic in place of IEEE
  doubles); `Math.floor`, `Math.ceil`, `Math.round` and the `%` operator are
  the corresponding exact operations on `ℚ`.
* The mapbox host map is modelled by a record holding its `project` /
  `unproject` capabilities and the sine and cosine of its current bearing
  (the source computes `Math.sin` / `Math.cos` of `getBearing() * π / 180`;
  those two transcendental values are the only thing the tick/label geometry
  consumes, so they are taken as the abstract state of the host view).
* The host's keyed source / layer / image registries are association lists;
  the `getSource` / `addSource` / `removeSource` (and layer / image) calls
  are explicit operations on them.
* The module-level `uniqueId` counter of `util.ts` is passed as explicit
  state (a `ℕ` holding the next value to return).
-/

/- ### JavaScript arithmetic helpers -/

/-- JavaScript truncation toward zero (`Math.trunc`), used by the `%` operator. -/
def jsTrunc (q : ℚ) : ℤ := if 0 ≤ q then ⌊q⌋ else ⌈q⌉

/-- JavaScript remainder `a % b` (result carries the sign of the dividend). -/
def jsMod (a b : ℚ) : ℚ := a - b * (jsTrunc (a / b) : ℚ)

/-- JavaScript `Math.round`: half-up, ties toward `+∞`. -/
def jsRound (q : ℚ) : ℤ := ⌊q + 1 / 2⌋

/- ### GeoJSON data model (the exact output shape of the layer's sources) -/

/-- GeoJSON geometry as produced by the layer: `LineString` for grid / tick /
border features and `Point` for label features. -/
inductive Geometry where
  | lineString (coordinates : List (ℚ × ℚ))
  | point (coordinates : ℚ × ℚ)
deriving DecidableEq, Repr

/-- The `properties` record of a label point feature:
`{label, rotate, anchor, icon}`. -/
structure LabelProps where
  label : String
  rotate : ℚ
  anchor : String
  icon : String
deriving DecidableEq, Repr

/-- Feature properties: grid / tick / border features carry `{}`, label
features carry a `LabelProps` record. -/
inductive Props where
  | empty
  | labelProps (p : LabelProps)
deriving DecidableEq, Repr

structure Feature where
  properties : Props
  geometry : Geometry
deriving DecidableEq, Repr

structure FeatureCollection where
  features : List Feature
deriving DecidableEq, Repr

/-- `EMPTY_GEOSJON` constant of `GraticuleLayer.ts` (sic). -/
def EMPTY_GEOSJON : FeatureCollection := ⟨[]⟩

/- ### `util.ts`: the module-level id counter -/

/-- `util.ts`: `let id = 1` — the counter's value at process start. -/
def firstUniqueId : ℕ := 1

/-- `util.ts` `uniqueId()`: `return id++` — returns the current counter value
and increments it.  The counter is threaded explicitly. -/
def uniqueId (id : ℕ) : ℕ × ℕ := (id, id + 1)

/- ### Bounds and the grid computation -/

/-- Geographic bounds; the source converts `[[west, south], [east, north]]`
via `LngLatBounds.convert` and reads it back with `getWest()` etc. -/
structure Bounds where
  west : ℚ
  south : ℚ
  east : ℚ
  north : ℚ
deriving DecidableEq, Repr

/-- `type IntervalUnit = 'd' | 'm'` — degree or arc-minute spacing. -/
inductive IntervalUnit where
  | d
  | m
deriving DecidableEq, Repr

/-- A grid line as pushed by `computeGrid`: a two-element coordinate array,
kept as the ordered pair of its endpoints. -/
abbrev GridLine := (ℚ × ℚ) × (ℚ × ℚ)

/-- The result of `computeGrid`: `{ lngLines, latLines }`. -/
structure GridLines where
  lngLines : List GridLine
  latLines : List GridLine
deriving DecidableEq, Repr

/-- The counting loop `for (let n = start; n <= maxV; n += step)` of
`computeGrid`, collecting the successive values of `n`.  The source loop does
not terminate when `step ≤ 0`; the embedding returns `[]` in that (never
exercised — `computeGrid` is only invoked with a positive interval) case so
that the recursion is well founded. -/
def forRange (step maxV n : ℚ) : List ℚ :=
  if h : 0 < step ∧ n ≤ maxV then
    n :: forRange step maxV (n + step)
  else
    []
termination_by (⌊(maxV - n) / step⌋).toNat + (if n ≤ maxV then 1 else 0)
decreasing_by
  obtain ⟨hs, hle⟩ := h
  have hstep0 : step ≠ 0 := ne_of_gt hs
  have hdiv : (maxV - (n + step)) / step = (maxV - n) / step - 1 := by
    field_simp
    ring
  have hfloor : ⌊(maxV - (n + step)) / step⌋ = ⌊(maxV - n) / step⌋ - 1 := by
    rw [hdiv, Int.floor_sub_one]
  have hnonneg : (0 : ℤ) ≤ ⌊(maxV - n) / step⌋ :=
    Int.floor_nonneg.mpr (div_nonneg (by linarith) hs.le)
  by_cases h2 : n + step ≤ maxV
  · have h1 : (1 : ℤ) ≤ ⌊(maxV - n) / step⌋ := by
      refine Int.le_floor.mpr ?_
      push_cast
      rw [le_div_iff₀ hs]
      linarith
    simp only [hfloor, h2, hle, if_true]
    omega
  · simp only [hfloor, h2, hle, if_true, if_false]
    omega

/-- `computeGrid()` of `GraticuleLayer.ts`.  In degree mode the candidate
coordinates are the multiples of `interval` snapped into the bounds with
`Math.ceil` below and `Math.floor` above; in arc-minute mode the same
computation is carried out on coordinates scaled by 60 and every emitted
candidate is divided by 60.  (The method reads `this.bounds`,
`this.interval` and `this.intervalUnit`; they are passed as arguments.) -/
def computeGrid (bounds : Bounds) (interval : ℚ) (intervalUnit : IntervalUnit) :
    GridLines :=
  let west := bounds.west
  let east := bounds.east
  let north := bounds.north
  let south := bounds.south
  match intervalUnit with
  | .d =>
    let minX : ℚ := (⌈west / interval⌉ : ℚ) * interval
    let maxX : ℚ := (⌊east / interval⌋ : ℚ) * interval
    let minY : ℚ := (⌈south / interval⌉ : ℚ) * interval
    let maxY : ℚ := (⌊north / interval⌋ : ℚ) * interval
    { lngLines := (forRange interval maxX minX).map fun n => ((n, south), (n, north))
      latLines := (forRange interval maxY minY).map fun n => ((west, n), (east, n)) }
  | .m =>
    let minX : ℚ := (⌈west * 60 / interval⌉ : ℚ) * interval
    let maxX : ℚ := (⌊east * 60 / interval⌋ : ℚ) * interval
    let minY : ℚ := (⌈south * 60 / interval⌉ : ℚ) * interval
    let maxY : ℚ := (⌊north * 60 / interval⌋ : ℚ) * interval
    { lngLines := (forRange interval maxX minX).map fun n => ((n / 60, south), (n / 60, north))
      latLines := (forRange interval maxY minY).map fun n => ((west, n / 60), (east, n / 60)) }

/- ### Decimal rendering (the functional core of `Nat.repr`) -/

/-- Decimal digit characters of a natural number, most significant first:
the value computed by `Nat.toDigitsCore` (and hence by `Nat.repr` /
`toString`), given structurally. -/
def decDigits (n : ℕ) : List Char :=
  if n < 10 then [Nat.digitChar n]
  else decDigits (n / 10) ++ [Nat.digitChar (n % 10)]
decreasing_by exact Nat.div_lt_self (by omega) (by omega)

/-- Value of a most-significant-first decimal digit list. -/
def decVal (l : List Char) : ℕ :=
  l.foldl (fun a c => 10 * a + (c.toNat - 48)) 0

/- ### The host map view (projection capabilities and bearing) -/

/-- The slice of the mapbox `Map` consumed by the geometry code:
`project` / `unproject` and the sine / cosine of
`getBearing() * π / 180`. -/
structure MapView where
  project : ℚ × ℚ → ℚ × ℚ
  unproject : ℚ × ℚ → ℚ × ℚ
  bearingSin : ℚ
  bearingCos : ℚ

/-- `gl-matrix` `vec2.rotate(out, a, b, rad)` with `s = sin rad`,
`c = cos rad`: rotate `a` around the origin point `b` (counter-clockwise by
`rad` in the standard formula). -/
def vec2rotate (a b : ℚ × ℚ) (s c : ℚ) : ℚ × ℚ :=
  ((a.1 - b.1) * c - (a.2 - b.2) * s + b.1,
   (a.1 - b.1) * s + (a.2 - b.2) * c + b.2)

/- ### The four source builders -/

/-- `createGridLinesSource(lngLines, latLines)`: one `LineString` feature per
grid line, longitude lines first; the empty collection when either input
list is empty. -/
def createGridLinesSource (lngLines latLines : List GridLine) : FeatureCollection :=
  if lngLines.length = 0 ∨ latLines.length = 0 then EMPTY_GEOSJON
  else
    let lines1 := lngLines.map fun item =>
      ({ properties := .empty, geometry := .lineString [item.1, item.2] } : Feature)
    let lines2 := latLines.map fun item =>
      ({ properties := .empty, geometry := .lineString [item.1, item.2] } : Feature)
    { features := lines1 ++ lines2 }

/-- Inner `createTickLine(lnglat, offset, xAxis)` of `createTickLinesSource`.
The source's `xAxis` / `!xAxis` branches are textually identical — both add
the offset to the projected point — so the flag does not influence the
result and is dropped here. -/
def createTickLine (map : MapView) (lnglat : ℚ × ℚ) (offset : ℚ × ℚ) : Feature :=
  let point := map.project lnglat
  let point2 := (point.1 + offset.1, point.2 + offset.2)
  let lnglat2 := map.unproject point2
  { properties := .empty, geometry := .lineString [lnglat, lnglat2] }

/-- `createTickLinesSource(lngLines, latLines, map, tickLen)`: two tick
segments per grid line (one at each endpoint, with sign-flipped offsets),
longitude lines first.  Empty when either line list is empty or the map is
absent; `tickLen = tickLen || 5` replaces a falsy (0) length by 5. -/
def createTickLinesSource (lngLines latLines : List GridLine) (mapArg : Option MapView)
    (tickLen : ℚ) : FeatureCollection :=
  match mapArg with
  | none => EMPTY_GEOSJON
  | some map =>
    if lngLines.length = 0 ∨ latLines.length = 0 then EMPTY_GEOSJON
    else
      let tickLen := if tickLen = 0 then 5 else tickLen
      let lngOffset := vec2rotate (0, tickLen) (0, 0) map.bearingSin map.bearingCos
      let latOffset := vec2rotate (tickLen, 0) (0, 0) map.bearingSin map.bearingCos
      let f1 := lngLines.flatMap fun item =>
        [createTickLine map item.1 (-lngOffset.1, lngOffset.2),
         createTickLine map item.2 (lngOffset.1, -lngOffset.2)]
      let f2 := latLines.flatMap fun item =>
        [createTickLine map item.1 (-latOffset.1, latOffset.2),
         createTickLine map item.2 (latOffset.1, -latOffset.2)]
      { features := f1 ++ f2 }

/-- `createBorderLinesSource(bounds)`: the four-corner closed ring of the
bounds as a single `LineString` feature. -/
def createBorderLinesSource (boundsArg : Option Bounds) : FeatureCollection :=
  match boundsArg with
  | none => EMPTY_GEOSJON
  | some b =>
    { features := [
        { properties := .empty,
          geometry := .lineString
            [(b.west, b.south), (b.east, b.south), (b.east, b.north),
             (b.west, b.north), (b.west, b.south)] }] }

/- ### Label formatting -/

/-- Inner helper `formatTag` of `createlabelFormatter`: hemisphere letter by
axis and sign, empty for zero. -/
def formatTag (value : ℚ) (isLng : Bool) : String :=
  if isLng then
    if value > 0 then "E" else if value < 0 then "W" else ""
  else
    if value > 0 then "N" else if value < 0 then "S" else ""

/-- `createlabelFormatter(num, isLng, labelFormat)` with its inner
`formatDegree`: degree / minute / second label text with hemisphere tag.
Any `labelFormat` other than `"degree"` and `"minute"` takes the final
(second-precision) branch. -/
def createlabelFormatter (num : ℚ) (isLng : Bool) (labelFormat : String) : String :=
  let tag := formatTag num isLng
  let value : ℚ := |num|
  let v1 : ℤ := ⌊value⌋
  let v2 : ℤ := ⌊(value - (v1 : ℚ)) * 60⌋
  let v3 : ℤ := jsRound (jsMod ((value - (v1 : ℚ)) * 3600) 60)
  if labelFormat = "degree" then
    toString v1 ++ "°" ++ tag
  else if labelFormat = "minute" then
    toString v1 ++ "°" ++ toString v2 ++ "\x27" ++ tag
  else
    toString v1 ++ "°" ++ toString v2 ++ "\x27" ++ toString v3 ++ "\x22" ++ tag

/- ### Label rasterization (`drawLabel`) -/

/-- Abstract browser drawing environment: the device pixel ratio
(`window.devicePixelRatio`) and the canvas text metrics
(`measureText` as a function of font weight, font size, font family and the
text). -/
structure CanvasEnv where
  dpr : ℚ
  measureText : String → ℚ → String → String → ℚ

/-- The bitmap returned by `drawLabel`, represented by the quantities that
determine it: the square canvas dimensions (device pixels), its CSS side
(device-independent pixels), the clip rectangle passed to `getImageData`,
and the rendered text settings. -/
structure ImageData where
  surfaceW : ℚ
  surfaceH : ℚ
  cssSide : ℚ
  clipWidth : ℤ
  clipHeight : ℚ
  text : String
  color : String
  fontWeight : String
  fontFamily : String
  fontSizePx : ℚ
deriving DecidableEq, Repr

/-- `drawLabel(text, fontFamily, fontSize, color, fontWeight)`: size a square
offscreen canvas (`len == 0 ? 256 : len * fontSize`, scaled by the device
pixel ratio with `window.devicePixelRatio || 1`), render the text, and
return `getImageData(0, 0, Math.round(measuredWidth), fontSize)`. -/
def drawLabel (env : CanvasEnv) (text : String) (fontFamily : String) (fontSize : ℚ)
    (color : String) (fontWeight : String) : ImageData :=
  let len : ℕ := text.length
  let pixelRatio : ℚ := if env.dpr = 0 then 1 else env.dpr
  let size : ℚ := if len = 0 then 256 else (len : ℚ) * fontSize
  let width : ℚ := env.measureText fontWeight fontSize fontFamily text
  { surfaceW := size * pixelRatio
    surfaceH := size * pixelRatio
    cssSide := size
    clipWidth := jsRound width
    clipHeight := fontSize
    text := text
    color := color
    fontWeight := fontWeight
    fontFamily := fontFamily
    fontSizePx := fontSize }

/- ### Stable ids -/

/-- The `_layerIDs` table: four stable ids, one per sub-layer. -/
structure LayerIds where
  grid : String
  tick : String
  border : String
  label : String
deriving DecidableEq, Repr

/-- `initLayersId()`: on first call generate the four stable ids from four
successive `uniqueId()` values (`'grid_' + uniqueId()` …); afterwards keep
the existing table unchanged. -/
def initLayersId (prev : Option LayerIds) (ctr : ℕ) : LayerIds × ℕ :=
  match prev with
  | some ids => (ids, ctr)
  | none =>
    let (u1, c1) := uniqueId ctr
    let (u2, c2) := uniqueId c1
    let (u3, c3) := uniqueId c2
    let (u4, c4) := uniqueId c3
    ({ grid := "grid_" ++ toString u1
       tick := "tick_" ++ toString u2
       border := "border_" ++ toString u3
       label := "label_" ++ toString u4 }, c4)

/-- `makeIconId()`: a fresh icon id from the process-wide counter. -/
def makeIconId (ctr : ℕ) : String × ℕ :=
  let (u, c) := uniqueId ctr
  ("graticule-icon-" ++ toString u, c)

/- ### Host registries -/

/-- Look up a keyed registry entry (`getSource(id)` / `getLayer(id)` /
`hasImage(id)`): the first entry with the given key. -/
def getEntry {α : Type} : List (String × α) → String → Option α
  | [], _ => none
  | p :: l, id => if p.1 = id then some p.2 else getEntry l id

/-- Replace the payload of the entries with the given key
(`getSource(id).setData(...)` / `updateImage(id, ...)`). -/
def setEntry {α : Type} : List (String × α) → String → α → List (String × α)
  | [], _, _ => []
  | p :: l, id, v => (if p.1 = id then (p.1, v) else p) :: setEntry l id v

/-- Remove the entries with the given key (`removeSource(id)` /
`removeLayer(id)`). -/
def removeEntry {α : Type} : List (String × α) → String → List (String × α)
  | [], _ => []
  | p :: l, id => if p.1 = id then removeEntry l id else p :: removeEntry l id

/-- How many registry entries carry the given key. -/
def keyCount {α : Type} : List (String × α) → String → ℕ
  | [], _ => 0
  | p :: l, id => (if p.1 = id then 1 else 0) + keyCount l id

/- ### The controller -/

/-- The fields of a `GraticuleLayer` instance that the reconciliation reads.
The stroke/label style payloads only feed the `paint` / `layout` records of
`createLayer`, which the embedding does not carry (see `LayerDesc`); of
`labelStyle` the four fields consumed by `createLabelPointsSource` are kept.
`labelStyle` is the record already merged over the documented defaults. -/
structure LabelStyle where
  color : String
  fontFamily : String
  fontSize : ℚ
  fontWeight : String
deriving DecidableEq, Repr

structure Graticule where
  showLabel : Bool
  showTick : Bool
  showBorder : Bool
  tickLength : ℚ
  showGrid : Bool
  intervalUnit : IntervalUnit
  interval : ℚ
  bounds : Bounds
  minZoom : ℚ
  maxZoom : ℚ
  labelFormatter : String
  labelStyle : LabelStyle
  layerIDs : Option LayerIds

/-- `createLayer(id, type, style)`: the mapbox layer descriptor.  The
`paint` / `layout` style payload is a pure function of the configured style
record and carries no claim-relevant information, so the embedding keeps the
identity fields (`id`, `type`, `source: id`, `minzoom`, `maxzoom`). -/
structure LayerDesc where
  id : String
  type : String
  source : String
  minzoom : ℚ
  maxzoom : ℚ
deriving DecidableEq, Repr

def createLayer (g : Graticule) (id : String) (ltype : String) : LayerDesc :=
  { id := id, type := ltype, source := id, minzoom := g.minZoom, maxzoom := g.maxZoom }

abbrev Images := List (String × ImageData)

/-- The mutable state outside the controller: the `uniqueId` counter of
`util.ts` and the host's keyed source / layer / image registries. -/
structure World where
  counter : ℕ
  sources : List (String × FeatureCollection)
  layers : List (String × LayerDesc)
  images : Images

/-- Inner `createPoint(lnglat, offset, xAxis, textAnchor)` of
`createLabelPointsSource`: project, offset, unproject; format the label for
the axis value; rasterize it; register the bitmap under a fresh icon id
(`hasImage` guard included); emit the label point feature at the offset
location. -/
def createPoint (map : MapView) (env : CanvasEnv) (labelFormat : String)
    (style : LabelStyle) (lnglat : ℚ × ℚ) (offset : ℚ × ℚ) (xAxis : Bool)
    (textAnchor : String) (ctr : ℕ) (images : Images) : Feature × ℕ × Images :=
  let point := map.project lnglat
  -- the x-axis and y-axis branches apply the offset identically and differ
  -- only in isLng / rotate / num:
  let isLng : Bool := if xAxis then false else true
  let rotate : ℚ := if xAxis then -90 else 0
  let num : ℚ := if xAxis then lnglat.2 else lnglat.1
  let point2 := (point.1 + offset.1, point.2 + offset.2)
  let lnglat2 := map.unproject point2
  let label := createlabelFormatter num isLng labelFormat
  let imageData := drawLabel env label style.fontFamily style.fontSize style.color
    style.fontWeight
  let (iconId, ctr') := makeIconId ctr
  let images' :=
    if (getEntry images iconId).isSome then setEntry images iconId imageData
    else images ++ [(iconId, imageData)]
  ({ properties := .labelProps
      { label := label, rotate := rotate, anchor := textAnchor, icon := iconId },
     geometry := .point lnglat2 }, ctr', images')

/-- Sequential `createPoint` calls (the two `forEach` loops of
`createLabelPointsSource`), threading the icon counter and image cache. -/
def createPoints (map : MapView) (env : CanvasEnv) (labelFormat : String)
    (style : LabelStyle) :
    List ((ℚ × ℚ) × (ℚ × ℚ) × Bool × String) → ℕ → Images → List Feature × ℕ × Images
  | [], ctr, images => ([], ctr, images)
  | (lnglat, offset, xAxis, anchor) :: rest, ctr, images =>
    let r1 := createPoint map env labelFormat style lnglat offset xAxis anchor ctr images
    let r2 := createPoints map env labelFormat style rest r1.2.1 r1.2.2
    (r1.1 :: r2.1, r2.2.1, r2.2.2)

/-- `createLabelPointsSource(lngLines, latLines, map, tickLen)` (reading
`this.labelFormatter` and `this.labelStyle`): one label point per grid-line
endpoint, with bearing-rotated offsets; longitude lines first (bottom then
top anchor), then latitude lines (left then right). -/
def createLabelPointsSource (lngLines latLines : List GridLine) (mapArg : Option MapView)
    (tickLen : ℚ) (labelFormat : String) (style : LabelStyle) (env : CanvasEnv)
    (ctr : ℕ) (images : Images) : FeatureCollection × ℕ × Images :=
  match mapArg with
  | none => (EMPTY_GEOSJON, ctr, images)
  | some map =>
    if lngLines.length = 0 ∨ latLines.length = 0 then (EMPTY_GEOSJON, ctr, images)
    else
      let tickLen := if tickLen = 0 then 5 else tickLen
      let lngOffset := vec2rotate (0, tickLen) (0, 0) map.bearingSin map.bearingCos
      let latOffset := vec2rotate (tickLen, 0) (0, 0) map.bearingSin map.bearingCos
      let pts :=
        (lngLines.flatMap fun item =>
          [(item.1, ((-lngOffset.1, lngOffset.2) : ℚ × ℚ), false, "top"),
           (item.2, ((lngOffset.1, -lngOffset.2) : ℚ × ℚ), false, "bottom")]) ++
        (latLines.flatMap fun item =>
          [(item.1, ((-latOffset.1, latOffset.2) : ℚ × ℚ), true, "bottom"),
           (item.2, ((latOffset.1, -latOffset.2) : ℚ × ℚ), true, "top")])
      let r := createPoints map env labelFormat style pts ctr images
      ({ features := r.1 }, r.2.1, r.2.2)

/-- One sub-layer's reconciliation step of `addLayers()`: upsert the source
and add the layer when the visibility flag is on, remove both (each guarded
by a presence check) when it is off.  The same pattern is inlined in the
source once per sub-layer. -/
def syncSublayer (vis : Bool) (id : String) (fc : FeatureCollection) (desc : LayerDesc)
    (w : World) : World :=
  if vis then
    let w1 :=
      if (getEntry w.sources id).isSome then { w with sources := setEntry w.sources id fc }
      else { w with sources := w.sources ++ [(id, fc)] }
    if (getEntry w1.layers id).isSome then w1
    else { w1 with layers := w1.layers ++ [(id, desc)] }
  else
    let w1 :=
      if (getEntry w.sources id).isSome then { w with sources := removeEntry w.sources id }
      else w
    if (getEntry w1.layers id).isSome then { w1 with layers := removeEntry w1.layers id }
    else w1

/-- The four per-sub-layer reconciliation steps of `addLayers()` once the
stable ids exist: grid, tick, border, then label (whose source build
allocates icon ids and registers images, threading the counter and cache). -/
def reconcile (g : Graticule) (ids : LayerIds) (lines : GridLines) (view : MapView)
    (env : CanvasEnv) (w : World) : World :=
  -- grid lines sub-layer
  let gridGeoJSON :=
    if g.showGrid then createGridLinesSource lines.lngLines lines.latLines
    else EMPTY_GEOSJON
  let w2 := syncSublayer g.showGrid ids.grid gridGeoJSON (createLayer g ids.grid "line") w
  -- tick sub-layer
  let tickGeoJSON :=
    if g.showTick then
      createTickLinesSource lines.lngLines lines.latLines (some view) g.tickLength
    else EMPTY_GEOSJON
  let w3 := syncSublayer g.showTick ids.tick tickGeoJSON (createLayer g ids.tick "line") w2
  -- border sub-layer
  let borderGeoJSON :=
    if g.showBorder then createBorderLinesSource (some g.bounds) else EMPTY_GEOSJON
  let w4 := syncSublayer g.showBorder ids.border borderGeoJSON
    (createLayer g ids.border "line") w3
  -- label sub-layer
  let r5 :=
    if g.showLabel then
      createLabelPointsSource lines.lngLines lines.latLines (some view) g.tickLength
        g.labelFormatter g.labelStyle env w4.counter w4.images
    else (EMPTY_GEOSJON, w4.counter, w4.images)
  let w5 := { w4 with counter := r5.2.1, images := r5.2.2 }
  syncSublayer g.showLabel ids.label r5.1 (createLayer g ids.label "symbol") w5

/-- `addLayers()` — the body of `update()` (and of `addTo` / `setBounds` /
`setInterval`): recompute the grid, ensure the stable ids exist, and
reconcile each of the four sub-layers against the host registries. -/
def addLayers (g : Graticule) (view : MapView) (env : CanvasEnv) (w : World) :
    Graticule × World :=
  let lines := computeGrid g.bounds g.interval g.intervalUnit
  let r0 := initLayersId g.layerIDs w.counter
  let g1 := { g with layerIDs := some r0.1 }
  (g1, reconcile g1 r0.1 lines view env { w with counter := r0.2 })

/- ### Claim-side definitions (worded from the spec, for refinement claims) -/

/-- Claim C5's hemisphere-tag rule, as the spec words it: `value > 0 →
"E"/"N"` (by axis), `value < 0 → "W"/"S"`, `value == 0 →` no tag. -/
def specLabelTag (value : ℚ) (isLng : Bool) : String :=
  if value > 0 then (if isLng then "E" else "N")
  else if value < 0 then (if isLng then "W" else "S")
  else ""

/-- Claim C5's label rendering: decomposition `degrees = floor(value)`,
`minutes = floor((value − degrees) × 60)`,
`seconds = round(((value − degrees) × 3600) mod 60)` on `abs(value)`,
rendered per precision with the hemisphere tag. -/
def specLabelText (num : ℚ) (isLng : Bool) (precision : String) : String :=
  let tag := specLabelTag num isLng
  let d : ℤ := ⌊|num|⌋
  let m : ℤ := ⌊(|num| - (d : ℚ)) * 60⌋
  let s : ℤ := jsRound (jsMod ((|num| - (d : ℚ)) * 3600) 60)
  if precision = "degree" then toString d ++ "°" ++ tag
  else if precision = "minute" then toString d ++ "°" ++ toString m ++ "\x27" ++ tag
  else toString d ++ "°" ++ toString m ++ "\x27" ++ toString s ++ "\x22" ++ tag

/-- Claim C7's tick segment: `[endpoint, unproject(project(endpoint) + v)]`. -/
def specTickSegment (map : MapView) (endpoint : ℚ × ℚ) (v : ℚ × ℚ) : Feature :=
  { properties := .empty,
    geometry := .lineString
      [endpoint,
       map.unproject ((map.project endpoint).1 + v.1, (map.project endpoint).2 + v.2)] }

/-- Claim C8's bitmap-side formula: `max(256, text.length × fontSize)` scaled
by the device pixel ratio. -/
def specSurfaceSide (textLen : ℕ) (fontSize dpr : ℚ) : ℚ :=
  max 256 ((textLen : ℚ) * fontSize) * dpr

/-- Erase the icon ids of label features — the only per-call-fresh component
of a label feature collection. -/
def eraseIcon (f : Feature) : Feature :=
  match f.properties with
  | .labelProps p => { f with properties := .labelProps { p with icon := "" } }
  | .empty => f

def eraseIcons (fc : FeatureCollection) : FeatureCollection :=
  ⟨fc.features.map eraseIcon⟩

/-- Claim C7's amended offset for longitude-line ticks: the standard bearing
rotation of `[0, tickLength]` with its x-component negated (the offset the
source applies at a longitude line's first endpoint). -/
def specLngTickOffset (view : MapView) (t : ℚ) : ℚ × ℚ :=
  let r := vec2rotate (0, t) (0, 0) view.bearingSin view.bearingCos
  (-r.1, r.2)

/-- Claim C7's amended offset for latitude-line ticks. -/
def specLatTickOffset (view : MapView) (t : ℚ) : ℚ × ℚ :=
  let q := vec2rotate (t, 0) (0, 0) view.bearingSin view.bearingCos
  (-q.1, q.2)

/-- A concrete host view for witnesses/counterexamples: identity projection,
bearing with sine 3/5 and cosine 4/5. -/
def testView : MapView :=
  { project := id, unproject := id, bearingSin := 3 / 5, bearingCos := 4 / 5 }

/-- A concrete drawing environment for witnesses/counterexamples. -/
def testEnv : CanvasEnv :=
  { dpr := 1, measureText := fun _ _ _ _ => 41 / 2 }

/-- The default label style record. -/
def testStyle : LabelStyle :=
  { color := "#000000", fontFamily := "sans-serif", fontSize := 16,
    fontWeight := "normal" }

/-- Counter value after `k` successive `uniqueId()` calls starting from
counter state `c`. -/
def uniqueIdState (c : ℕ) : ℕ → ℕ
  | 0 => c
  | k + 1 => (uniqueId (uniqueIdState c k)).2

/-- The icon id of a collection's first feature (when it is a label
feature): the only per-update-fresh component of label sources. -/
def firstIcon (fc : FeatureCollection) : Option String :=
  match fc.features with
  | [] => none
  | f :: _ =>
    match f.properties with
    | .labelProps p => some p.icon
    | .empty => none

/-- A concrete attached id table for witnesses/counterexamples. -/
def testIds : LayerIds :=
  { grid := "grid_1", tick := "tick_2", border := "border_3", label := "label_4" }

/-- A concrete attached controller configuration (label sub-layer enabled,
degenerate bounds giving exactly one grid line per axis). -/
def testGraticule : Graticule :=
  { showLabel := true, showTick := false, showBorder := false, tickLength := 5,
    showGrid := false, intervalUnit := .d, interval := 10,
    bounds := { west := 0, south := 0, east := 0, north := 0 },
    minZoom := 0, maxZoom := 22, labelFormatter := "degree", labelStyle := testStyle,
    layerIDs := some testIds }

/-- A concrete initial world: counter at 5, all registries empty. -/
def testWorld : World := { counter := 5, sources := [], layers := [], images := [] }

/- ### Characterization of the counting loop -/

theorem forRange_pos_le {step maxV n : ℚ} (hs : 0 < step) (hle : n ≤ maxV) :
    forRange step maxV n = n :: forRange step maxV (n + step) := by
  rw [forRange]
  simp [hs, hle]

theorem forRange_of_gt {step maxV n : ℚ} (h : ¬ n ≤ maxV) :
    forRange step maxV n = [] := by
  rw [forRange]
  simp [h]

/-- Closed form of the loop: its iterates are `n, n + step, …` up to the last
one that is `≤ maxV`. -/
theorem forRange_eq_range (step maxV : ℚ) (hs : 0 < step) :
    ∀ K : ℕ, ∀ n : ℚ, n ≤ maxV → (⌊(maxV - n) / step⌋).toNat = K →
      forRange step maxV n =
        (List.range (K + 1)).map fun j : ℕ => n + (j : ℚ) * step := by
  intro K
  induction K with
  | zero =>
    intro n hle hK
    have h0 : (0 : ℚ) ≤ (maxV - n) / step := div_nonneg (by linarith) hs.le
    have hfl : (0 : ℤ) ≤ ⌊(maxV - n) / step⌋ := Int.floor_nonneg.mpr h0
    have hlt : (maxV - n) / step < 1 := by
      by_contra hc
      push_neg at hc
      have : (1 : ℤ) ≤ ⌊(maxV - n) / step⌋ := Int.le_floor.mpr (by exact_mod_cast hc)
      omega
    have hnext : ¬ n + step ≤ maxV := by
      intro hc
      have : (1 : ℚ) ≤ (maxV - n) / step := by
        rw [le_div_iff₀ hs]
        linarith
      linarith
    rw [forRange_pos_le hs hle, forRange_of_gt hnext]
    have h1 : List.range 1 = [0] := rfl
    rw [h1]
    norm_num
  | succ K ih =>
    intro n hle hK
    have hge : (1 : ℤ) ≤ ⌊(maxV - n) / step⌋ := by omega
    have hge' : (1 : ℚ) ≤ (maxV - n) / step := by
      have := Int.floor_le ((maxV - n) / step)
      calc (1 : ℚ) ≤ (⌊(maxV - n) / step⌋ : ℚ) := by exact_mod_cast hge
        _ ≤ (maxV - n) / step := this
    have hnext : n + step ≤ maxV := by
      rw [le_div_iff₀ hs] at hge'
      linarith
    have hfloor : ⌊(maxV - (n + step)) / step⌋ = ⌊(maxV - n) / step⌋ - 1 := by
      have hdiv : (maxV - (n + step)) / step = (maxV - n) / step - 1 := by
        field_simp
        ring
      rw [hdiv, Int.floor_sub_one]
    have hK' : (⌊(maxV - (n + step)) / step⌋).toNat = K := by
      rw [hfloor]
      omega
    rw [forRange_pos_le hs hle, ih (n + step) hnext hK']
    have hr : List.range (K + 1 + 1) = 0 :: (List.range (K + 1)).map (· + 1) := by
      rw [List.range_succ_eq_map]
    rw [hr]
    simp only [List.map_cons, List.map_map, Nat.cast_zero, zero_mul, add_zero]
    congr 1
    · congr 1
      funext j
      simp only [Function.comp_apply]
      push_cast
      ring

/-- The loop, fully characterized for a positive step: the number of iterates
is `(⌊(maxV - n) / step⌋ + 1).toNat` (zero when `maxV < n`). -/
theorem forRange_closed (step maxV n : ℚ) (hs : 0 < step) :
    forRange step maxV n =
      (List.range (if n ≤ maxV then (⌊(maxV - n) / step⌋).toNat + 1 else 0)).map
        fun j : ℕ => n + (j : ℚ) * step := by
  by_cases hle : n ≤ maxV
  · rw [forRange_eq_range step maxV hs _ n hle rfl]
    simp [hle]
  · rw [forRange_of_gt hle]
    simp [hle]

/-- The loop over snapped multiples: starting at `⌈·⌉ * i` and ending at
`⌊·⌋ * i` it enumerates the multiples `C·i, (C+1)·i, …, F·i`. -/
theorem forRange_snap (i : ℚ) (hi : 0 < i) (C F : ℤ) :
    forRange i ((F : ℚ) * i) ((C : ℚ) * i) =
      (List.range (F - C + 1).toNat).map fun j : ℕ => ((C + j : ℤ) : ℚ) * i := by
  rw [forRange_closed _ _ _ hi]
  have hdiv : ((F : ℚ) * i - (C : ℚ) * i) / i = ((F - C : ℤ) : ℚ) := by
    push_cast
    field_simp
    ring
  by_cases hle : (C : ℚ) * i ≤ (F : ℚ) * i
  · have hCF : C ≤ F := by
      have h2 := le_of_mul_le_mul_right hle hi
      exact_mod_cast h2
    rw [if_pos hle, hdiv, Int.floor_intCast]
    have hcnt : (F - C).toNat + 1 = (F - C + 1).toNat := by omega
    rw [hcnt]
    congr 1
    funext j
    push_cast
    ring
  · have hCF : ¬ C ≤ F := by
      intro hc
      exact hle (mul_le_mul_of_nonneg_right (by exact_mod_cast hc) hi.le)
    rw [if_neg hle]
    have hcnt : (F - C + 1).toNat = 0 := by omega
    rw [hcnt]
    simp

/-- Structure extensionality for `GridLines`. -/
theorem GridLines.ext' {a b : GridLines} (h1 : a.lngLines = b.lngLines)
    (h2 : a.latLines = b.latLines) : a = b := by
  cases a
  cases b
  simp_all

/-- Degree mode, longitude lines: one line per multiple of the interval
between `⌈west/i⌉` and `⌊east/i⌋`, in ascending order, each spanning
south → north. -/
theorem computeGrid_d_lngLines (b : Bounds) (i : ℚ) (hi : 0 < i) :
    (computeGrid b i .d).lngLines =
      (List.range (⌊b.east / i⌋ - ⌈b.west / i⌉ + 1).toNat).map
        fun j : ℕ =>
          ((((⌈b.west / i⌉ + j : ℤ) : ℚ) * i, b.south),
           (((⌈b.west / i⌉ + j : ℤ) : ℚ) * i, b.north)) := by
  simp only [computeGrid]
  rw [forRange_snap i hi, List.map_map]
  rfl

/-- Degree mode, latitude lines. -/
theorem computeGrid_d_latLines (b : Bounds) (i : ℚ) (hi : 0 < i) :
    (computeGrid b i .d).latLines =
      (List.range (⌊b.north / i⌋ - ⌈b.south / i⌉ + 1).toNat).map
        fun j : ℕ =>
          ((b.west, ((⌈b.south / i⌉ + j : ℤ) : ℚ) * i),
           (b.east, ((⌈b.south / i⌉ + j : ℤ) : ℚ) * i)) := by
  simp only [computeGrid]
  rw [forRange_snap i hi, List.map_map]
  rfl

/-- Arc-minute mode, longitude lines: the same enumeration carried out on
coordinates scaled by 60, each emitted candidate divided by 60. -/
theorem computeGrid_m_lngLines (b : Bounds) (i : ℚ) (hi : 0 < i) :
    (computeGrid b i .m).lngLines =
      (List.range (⌊b.east * 60 / i⌋ - ⌈b.west * 60 / i⌉ + 1).toNat).map
        fun j : ℕ =>
          ((((⌈b.west * 60 / i⌉ + j : ℤ) : ℚ) * i / 60, b.south),
           (((⌈b.west * 60 / i⌉ + j : ℤ) : ℚ) * i / 60, b.north)) := by
  simp only [computeGrid]
  rw [forRange_snap i hi, List.map_map]
  rfl

/-- Arc-minute mode, latitude lines. -/
theorem computeGrid_m_latLines (b : Bounds) (i : ℚ) (hi : 0 < i) :
    (computeGrid b i .m).latLines =
      (List.range (⌊b.north * 60 / i⌋ - ⌈b.south * 60 / i⌉ + 1).toNat).map
        fun j : ℕ =>
          ((b.west, ((⌈b.south * 60 / i⌉ + j : ℤ) : ℚ) * i / 60),
           (b.east, ((⌈b.south * 60 / i⌉ + j : ℤ) : ℚ) * i / 60)) := by
  simp only [computeGrid]
  rw [forRange_snap i hi, List.map_map]
  rfl

/- ### C2 / C3 / C4: grid computation claims -/

/-- **C2.** In degree mode, for bounds with `west ≤ east`, `south ≤ north`
and `interval > 0`, `computeGrid` returns exactly
`max(0, ⌊east/interval⌋ − ⌈west/interval⌉ + 1)` longitude lines, each
spanning from south to north at consecutive multiples of the interval in
ascending order, and symmetrically
`max(0, ⌊north/interval⌋ − ⌈south/interval⌉ + 1)` latitude lines spanning
from west to east. -/
theorem C2_computeGrid_degree (b : Bounds) (i : ℚ)
    (hwe : b.west ≤ b.east) (hsn : b.south ≤ b.north) (hi : 0 < i) :
    ((computeGrid b i .d).lngLines.length
        = (⌊b.east / i⌋ - ⌈b.west / i⌉ + 1).toNat
      ∧ (computeGrid b i .d).lngLines =
          (List.range (⌊b.east / i⌋ - ⌈b.west / i⌉ + 1).toNat).map
            fun j : ℕ =>
              ((((⌈b.west / i⌉ + j : ℤ) : ℚ) * i, b.south),
               (((⌈b.west / i⌉ + j : ℤ) : ℚ) * i, b.north)))
    ∧ ((computeGrid b i .d).latLines.length
        = (⌊b.north / i⌋ - ⌈b.south / i⌉ + 1).toNat
      ∧ (computeGrid b i .d).latLines =
          (List.range (⌊b.north / i⌋ - ⌈b.south / i⌉ + 1).toNat).map
            fun j : ℕ =>
              ((b.west, ((⌈b.south / i⌉ + j : ℤ) : ℚ) * i),
               (b.east, ((⌈b.south / i⌉ + j : ℤ) : ℚ) * i))) := by
  refine ⟨⟨?_, computeGrid_d_lngLines b i hi⟩, ?_, computeGrid_d_latLines b i hi⟩
  · rw [computeGrid_d_lngLines b i hi]
    simp
  · rw [computeGrid_d_latLines b i hi]
    simp

/-- Witness for C2: the spec's scenario — bounds `[[120,30],[130,40]]`,
interval `5`, degree mode gives longitude lines at 120, 125, 130 and
latitude lines at 30, 35, 40. -/
theorem C2_witness :
    ((120 : ℚ) ≤ 130 ∧ (30 : ℚ) ≤ 40 ∧ (0 : ℚ) < 5)
    ∧ (computeGrid ⟨120, 30, 130, 40⟩ 5 .d).lngLines.length = 3
    ∧ (computeGrid ⟨120, 30, 130, 40⟩ 5 .d).lngLines =
        [((120, 30), (120, 40)), ((125, 30), (125, 40)), ((130, 30), (130, 40))]
    ∧ (computeGrid ⟨120, 30, 130, 40⟩ 5 .d).latLines =
        [((120, 30), (130, 30)), ((120, 35), (130, 35)), ((120, 40), (130, 40))] := by
  have h := C2_computeGrid_degree ⟨120, 30, 130, 40⟩ 5 (by norm_num) (by norm_num)
    (by norm_num)
  have hf1 : (⌊(130 : ℚ) / 5⌋ : ℤ) = 26 := by
    rw [Int.floor_eq_iff]
    norm_num
  have hc1 : (⌈(120 : ℚ) / 5⌉ : ℤ) = 24 := by
    rw [Int.ceil_eq_iff]
    norm_num
  have hf2 : (⌊(40 : ℚ) / 5⌋ : ℤ) = 8 := by
    rw [Int.floor_eq_iff]
    norm_num
  have hc2 : (⌈(30 : ℚ) / 5⌉ : ℤ) = 6 := by
    rw [Int.ceil_eq_iff]
    norm_num
  refine ⟨⟨by norm_num, by norm_num, by norm_num⟩, ?_, ?_, ?_⟩
  · rw [h.1.1]
    dsimp only
    rw [hf1, hc1]
    rfl
  · rw [h.1.2]
    dsimp only
    simp only [hf1, hc1]
    simp only [show ((26 : ℤ) - 24 + 1).toNat = 3 from rfl]
    norm_num [List.range_succ]
  · rw [h.2.2]
    dsimp only
    simp only [hf2, hc2]
    simp only [show ((8 : ℤ) - 6 + 1).toNat = 3 from rfl]
    norm_num [List.range_succ]

/-- **C3.** For every bounds and `interval > 0`, arc-minute mode produces
exactly the grid of degree mode at `interval / 60` (an exact equality in the
rational model, hence equality "up to floating-point rounding" for the
doubles of the source). -/
theorem C3_arcminute_refines_degree (b : Bounds) (i : ℚ) (hi : 0 < i) :
    computeGrid b i .m = computeGrid b (i / 60) .d := by
  have hi60 : (0 : ℚ) < i / 60 := by positivity
  refine GridLines.ext' ?_ ?_
  · rw [computeGrid_m_lngLines b i hi, computeGrid_d_lngLines b (i / 60) hi60]
    rw [div_div_eq_mul_div, div_div_eq_mul_div]
    congr 1
    funext j
    have harith : ((⌈b.west * 60 / i⌉ + j : ℤ) : ℚ) * (i / 60)
        = ((⌈b.west * 60 / i⌉ + j : ℤ) : ℚ) * i / 60 := by ring
    rw [harith]
  · rw [computeGrid_m_latLines b i hi, computeGrid_d_latLines b (i / 60) hi60]
    rw [div_div_eq_mul_div, div_div_eq_mul_div]
    congr 1
    funext j
    have harith : ((⌈b.south * 60 / i⌉ + j : ℤ) : ℚ) * (i / 60)
        = ((⌈b.south * 60 / i⌉ + j : ℤ) : ℚ) * i / 60 := by ring
    rw [harith]

/-- Witness for C3: interval 30 arc-minutes over `[[120.5,31],[121,31.4]]`
equals degree mode at half a degree. -/
theorem C3_witness :
    (0 : ℚ) < 30
    ∧ computeGrid ⟨241 / 2, 31, 121, 157 / 5⟩ 30 .m
        = computeGrid ⟨241 / 2, 31, 121, 157 / 5⟩ (30 / 60) .d :=
  ⟨by norm_num, C3_arcminute_refines_degree ⟨241 / 2, 31, 121, 157 / 5⟩ 30 (by norm_num)⟩

/-- When the interval exceeds the span of `[lo, hi2]` there is at most one
snapped multiple inside it. -/
theorem snap_count_le_one (i lo hi2 : ℚ) (hpos : 0 < i) (hspan : hi2 - lo < i) :
    (⌊hi2 / i⌋ - ⌈lo / i⌉ + 1).toNat ≤ 1 := by
  have h1 : ⌊hi2 / i⌋ ≤ ⌈lo / i⌉ := by
    by_contra hc
    push_neg at hc
    have h2 : lo / i ≤ (⌈lo / i⌉ : ℚ) := Int.le_ceil _
    have h3 : (⌊hi2 / i⌋ : ℚ) ≤ hi2 / i := Int.floor_le _
    have h4 : (⌈lo / i⌉ : ℚ) + 1 ≤ (⌊hi2 / i⌋ : ℚ) := by exact_mod_cast hc
    have h5 : lo / i + 1 ≤ hi2 / i := by linarith
    have h6 := mul_le_mul_of_nonneg_right h5 hpos.le
    have h7 : (lo / i + 1) * i = lo + i := by field_simp
    have h8 : hi2 / i * i = hi2 := div_mul_cancel₀ _ (ne_of_gt hpos)
    rw [h7, h8] at h6
    linarith
  omega

/-- **C4 counterexample.** Bounds `[[4.9, 0], [5.1, 1]]` with interval `5`
in degree mode: the longitude span `0.2` is smaller than the interval, yet
`computeGrid` emits one longitude line (at the multiple `5`, which lies
inside the range) — the claimed empty list is wrong. -/
theorem C4_counterexample :
    ((51 / 10 : ℚ) - 49 / 10 < 5)
    ∧ (computeGrid ⟨49 / 10, 0, 51 / 10, 1⟩ 5 .d).lngLines = [((5, 0), (5, 1))] := by
  constructor
  · norm_num
  · rw [computeGrid_d_lngLines _ _ (by norm_num)]
    have hf : (⌊(51 / 10 : ℚ) / 5⌋ : ℤ) = 1 := by
      rw [Int.floor_eq_iff]
      norm_num
    have hc : (⌈(49 / 10 : ℚ) / 5⌉ : ℤ) = 1 := by
      rw [Int.ceil_eq_iff]
      norm_num
    dsimp only
    simp only [hf, hc]
    simp only [show ((1 : ℤ) - 1 + 1).toNat = 1 from rfl]
    norm_num [List.range_succ]

/-- The snapped enumeration between `⌈lo/i⌉` and `⌊hi2/i⌋` is nonempty
exactly when some multiple of `i` lies inside `[lo, hi2]`. -/
theorem snap_nonempty_iff (i lo hi2 : ℚ) (hpos : 0 < i) :
    (⌊hi2 / i⌋ - ⌈lo / i⌉ + 1).toNat ≠ 0
      ↔ ∃ k : ℤ, lo ≤ (k : ℚ) * i ∧ (k : ℚ) * i ≤ hi2 := by
  constructor
  · intro h
    have hle : ⌈lo / i⌉ ≤ ⌊hi2 / i⌋ := by omega
    refine ⟨⌈lo / i⌉, ?_, ?_⟩
    · have h1 : lo / i ≤ (⌈lo / i⌉ : ℚ) := Int.le_ceil _
      have h2 := mul_le_mul_of_nonneg_right h1 hpos.le
      rwa [div_mul_cancel₀ _ (ne_of_gt hpos)] at h2
    · have h3 : (⌈lo / i⌉ : ℚ) ≤ (⌊hi2 / i⌋ : ℚ) := by exact_mod_cast hle
      have h4 : (⌊hi2 / i⌋ : ℚ) ≤ hi2 / i := Int.floor_le _
      have h5 := mul_le_mul_of_nonneg_right h4 hpos.le
      rw [div_mul_cancel₀ _ (ne_of_gt hpos)] at h5
      have h6 := mul_le_mul_of_nonneg_right h3 hpos.le
      linarith
  · rintro ⟨k, hk1, hk2⟩
    have hc : ⌈lo / i⌉ ≤ k := by
      refine Int.ceil_le.mpr ?_
      rw [div_le_iff₀ hpos]
      exact hk1
    have hf : k ≤ ⌊hi2 / i⌋ := by
      refine Int.le_floor.mpr ?_
      rw [le_div_iff₀ hpos]
      exact hk2
    omega

/-- **C4 (amended).** If the axis span is smaller than the interval (in the
axis's unit) then that axis's line list has at most one entry: it is
nonempty — i.e. exactly one line — precisely when a multiple of the
interval (in that unit) lies inside the axis range, and empty otherwise. -/
theorem C4_amended (b : Bounds) (i : ℚ) (hi : 0 < i) :
    (b.east - b.west < i →
      (computeGrid b i .d).lngLines.length ≤ 1
      ∧ ((computeGrid b i .d).lngLines ≠ []
          ↔ ∃ k : ℤ, b.west ≤ (k : ℚ) * i ∧ (k : ℚ) * i ≤ b.east))
    ∧ (b.north - b.south < i →
      (computeGrid b i .d).latLines.length ≤ 1
      ∧ ((computeGrid b i .d).latLines ≠ []
          ↔ ∃ k : ℤ, b.south ≤ (k : ℚ) * i ∧ (k : ℚ) * i ≤ b.north))
    ∧ ((b.east - b.west) * 60 < i →
      (computeGrid b i .m).lngLines.length ≤ 1
      ∧ ((computeGrid b i .m).lngLines ≠ []
          ↔ ∃ k : ℤ, b.west * 60 ≤ (k : ℚ) * i ∧ (k : ℚ) * i ≤ b.east * 60))
    ∧ ((b.north - b.south) * 60 < i →
      (computeGrid b i .m).latLines.length ≤ 1
      ∧ ((computeGrid b i .m).latLines ≠ []
          ↔ ∃ k : ℤ, b.south * 60 ≤ (k : ℚ) * i ∧ (k : ℚ) * i ≤ b.north * 60)) := by
  refine ⟨fun hspan => ⟨?_, ?_⟩, fun hspan => ⟨?_, ?_⟩, fun hspan => ⟨?_, ?_⟩,
    fun hspan => ⟨?_, ?_⟩⟩
  · rw [computeGrid_d_lngLines b i hi]
    simpa using snap_count_le_one i b.west b.east hi hspan
  · rw [computeGrid_d_lngLines b i hi]
    simp only [ne_eq, List.map_eq_nil_iff, List.range_eq_nil]
    exact snap_nonempty_iff i b.west b.east hi
  · rw [computeGrid_d_latLines b i hi]
    simpa using snap_count_le_one i b.south b.north hi hspan
  · rw [computeGrid_d_latLines b i hi]
    simp only [ne_eq, List.map_eq_nil_iff, List.range_eq_nil]
    exact snap_nonempty_iff i b.south b.north hi
  · rw [computeGrid_m_lngLines b i hi]
    simpa using snap_count_le_one i (b.west * 60) (b.east * 60) hi (by linarith)
  · rw [computeGrid_m_lngLines b i hi]
    simp only [ne_eq, List.map_eq_nil_iff, List.range_eq_nil]
    exact snap_nonempty_iff i (b.west * 60) (b.east * 60) hi
  · rw [computeGrid_m_latLines b i hi]
    simpa using snap_count_le_one i (b.south * 60) (b.north * 60) hi (by linarith)
  · rw [computeGrid_m_latLines b i hi]
    simp only [ne_eq, List.map_eq_nil_iff, List.range_eq_nil]
    exact snap_nonempty_iff i (b.south * 60) (b.north * 60) hi

/-- Witness for the amended C4, at the counterexample's input (where one
longitude line exists and the multiple `1 · 5` lies inside the range). -/
theorem C4_amended_witness :
    ((0 : ℚ) < 5 ∧ (51 / 10 : ℚ) - 49 / 10 < 5)
    ∧ (computeGrid ⟨49 / 10, 0, 51 / 10, 1⟩ 5 .d).lngLines.length ≤ 1
    ∧ ((computeGrid ⟨49 / 10, 0, 51 / 10, 1⟩ 5 .d).lngLines ≠ []
        ↔ ∃ k : ℤ, (49 / 10 : ℚ) ≤ (k : ℚ) * 5 ∧ (k : ℚ) * 5 ≤ 51 / 10) :=
  ⟨⟨by norm_num, by norm_num⟩,
   ((C4_amended ⟨49 / 10, 0, 51 / 10, 1⟩ 5 (by norm_num)).1 (by norm_num)).1,
   ((C4_amended ⟨49 / 10, 0, 51 / 10, 1⟩ 5 (by norm_num)).1 (by norm_num)).2⟩

/- ### C5 / C6: label formatting claims -/

/-- The source's inner `formatTag` (axis first, then sign) computes exactly
the spec's hemisphere rule (sign first, then axis). -/
theorem formatTag_eq_specLabelTag (value : ℚ) (isLng : Bool) :
    formatTag value isLng = specLabelTag value isLng := by
  cases isLng <;> simp [formatTag, specLabelTag]

unseal Rat.mul Rat.inv Rat.add Rat.sub in
/-- **C5.** For every value, axis flag and precision in
{degree, minute, second}, `createlabelFormatter` renders exactly the
spec-worded hemisphere tag and `floor` / `floor·60` / `round(·3600 mod 60)`
decomposition per precision; and in particular
`format(31.26, isLongitudeAxis=false, "second") = "31°15'36\"N"`. -/
theorem C5_createlabelFormatter :
    (∀ (num : ℚ) (isLng : Bool) (fmt : String),
        fmt = "degree" ∨ fmt = "minute" ∨ fmt = "second" →
        createlabelFormatter num isLng fmt = specLabelText num isLng fmt)
    ∧ createlabelFormatter (3126 / 100) false "second" = "31°15\x2736\x22N" := by
  constructor
  · intro num isLng fmt hfmt
    simp only [createlabelFormatter, specLabelText, formatTag_eq_specLabelTag]
  · decide

/-- Witness for C5 at precision `"degree"`. -/
theorem C5_witness :
    (("degree" : String) = "degree" ∨ ("degree" : String) = "minute"
      ∨ ("degree" : String) = "second")
    ∧ createlabelFormatter (3126 / 100) false "degree"
        = specLabelText (3126 / 100) false "degree" :=
  ⟨Or.inl rfl, C5_createlabelFormatter.1 (3126 / 100) false "degree" (Or.inl rfl)⟩

unseal Rat.mul Rat.inv Rat.add Rat.sub in
/-- **C6 counterexample.** `createlabelFormatter` does NOT fail on an invalid
precision tag: the unrecognized tag `"gon"` falls through to the final
else-branch and renders at second precision — there is no throw in the
formatter (no `UnsupportedFormatError` exists on this path). -/
theorem C6_counterexample :
    createlabelFormatter (3126 / 100) false "gon" = "31°15\x2736\x22N"
    ∧ createlabelFormatter (3126 / 100) false "gon"
        = createlabelFormatter (3126 / 100) false "second" := by
  constructor
  · decide
  · decide

/-- **C6 (amended).** `createlabelFormatter` is a pure total function for
EVERY precision tag — it never fails; every tag other than `"degree"` and
`"minute"` (the valid `"second"` and any invalid tag alike) is rendered at
second precision. -/
theorem C6_amended (num : ℚ) (isLng : Bool) (fmt : String)
    (h1 : fmt ≠ "degree") (h2 : fmt ≠ "minute") :
    createlabelFormatter num isLng fmt = createlabelFormatter num isLng "second" := by
  simp only [createlabelFormatter]
  rw [if_neg h1, if_neg h2, if_neg (by decide), if_neg (by decide)]

/-- Witness for the amended C6 at the invalid tag `"gon"`. -/
theorem C6_amended_witness :
    (("gon" : String) ≠ "degree" ∧ ("gon" : String) ≠ "minute")
    ∧ createlabelFormatter 0 true "gon" = createlabelFormatter 0 true "second" :=
  ⟨⟨by decide, by decide⟩, C6_amended 0 true "gon" (by decide) (by decide)⟩

/- ### C7 / C8 / C9: tick geometry, rasterization, empty-axis claims -/

unseal Rat.mul Rat.inv Rat.add Rat.sub in
/-- **C7 counterexample.** With bearing sine 3/5 / cosine 4/5 (a valid
bearing), identity projection and `tickLength = 5`, the first tick feature
of the longitude line `(0,0)–(0,1)` is `[(0,0), (3,4)]`: the offset actually
applied is `(3,4)`, which is neither `v = rotate([0,5], bearing) = (-3,4)`
nor `-v = (3,-4)` — the claimed "base vector rotated by the bearing via a
standard 2D rotation" is not the offset the code uses. -/
theorem C7_counterexample :
    (3 / 5 : ℚ) ^ 2 + (4 / 5 : ℚ) ^ 2 = 1
    ∧ (createTickLinesSource [((0, 0), (0, 1))] [((0, 0), (1, 0))] (some testView)
        5).features.head?
        = some { properties := .empty, geometry := .lineString [(0, 0), (3, 4)] }
    ∧ vec2rotate (0, 5) (0, 0) (3 / 5) (4 / 5) = (-3, 4)
    ∧ ((3 : ℚ), (4 : ℚ)) ≠ vec2rotate (0, 5) (0, 0) (3 / 5) (4 / 5)
    ∧ ((3 : ℚ), (4 : ℚ))
        ≠ (-(vec2rotate (0, 5) (0, 0) (3 / 5) (4 / 5)).1,
           -(vec2rotate (0, 5) (0, 0) (3 / 5) (4 / 5)).2) := by
  refine ⟨by norm_num, ?_, ?_, ?_, ?_⟩ <;> decide

/-- **C7 (amended).** For nonempty line lists and a present map, every tick
feature is `[endpoint, unproject(project(endpoint) + v)]`; at a line's first
endpoint the offset is the standard bearing rotation of the base pixel
vector (`[0, tickLength]` for longitude ticks, `[tickLength, 0]` for
latitude ticks) with its x-component negated — i.e. the base vector rotated
by MINUS the bearing for longitude ticks — and the offset at the opposite
endpoint is its exact negation. -/
theorem C7_amended (lngLines latLines : List GridLine) (view : MapView) (t : ℚ)
    (h1 : lngLines ≠ []) (h2 : latLines ≠ []) (ht : t ≠ 0) :
    createTickLinesSource lngLines latLines (some view) t =
      { features :=
          (lngLines.flatMap fun item =>
            [specTickSegment view item.1 (specLngTickOffset view t),
             specTickSegment view item.2
               (-(specLngTickOffset view t).1, -(specLngTickOffset view t).2)]) ++
          (latLines.flatMap fun item =>
            [specTickSegment view item.1 (specLatTickOffset view t),
             specTickSegment view item.2
               (-(specLatTickOffset view t).1, -(specLatTickOffset view t).2)]) } := by
  have hg : ¬(lngLines.length = 0 ∨ latLines.length = 0) := by
    simp [List.length_eq_zero, h1, h2]
  simp only [createTickLinesSource]
  rw [if_neg hg, if_neg ht]
  simp [createTickLine, specTickSegment, specLngTickOffset, specLatTickOffset, neg_neg]

/-- Witness for the amended C7 at the counterexample's configuration. -/
theorem C7_amended_witness :
    (([((0, 0), (0, 1))] : List GridLine) ≠ []
      ∧ ([((0, 0), (1, 0))] : List GridLine) ≠ [] ∧ (5 : ℚ) ≠ 0)
    ∧ createTickLinesSource [((0, 0), (0, 1))] [((0, 0), (1, 0))] (some testView) 5 =
        { features :=
            [specTickSegment testView (0, 0) (specLngTickOffset testView 5),
             specTickSegment testView (0, 1)
               (-(specLngTickOffset testView 5).1, -(specLngTickOffset testView 5).2),
             specTickSegment testView (0, 0) (specLatTickOffset testView 5),
             specTickSegment testView (1, 0)
               (-(specLatTickOffset testView 5).1, -(specLatTickOffset testView 5).2)] } := by
  refine ⟨⟨by decide, by decide, by decide⟩, ?_⟩
  have h := C7_amended [((0, 0), (0, 1))] [((0, 0), (1, 0))] testView 5
    (by decide) (by decide) (by decide)
  simpa using h

unseal Rat.mul Rat.inv Rat.add Rat.sub in
/-- **C8 counterexample.** For the two-character text `"ab"` at font size 16
and device pixel ratio 1, `drawLabel`'s square surface is `2 × 16 = 32`
device pixels — not `max(256, 2 × 16) = 256` as claimed (the 256 floor
applies only to empty text); and the clip width is the ROUNDED measured
width (20.5 → 21), not the measured width itself. -/
theorem C8_counterexample :
    (drawLabel testEnv "ab" "sans-serif" 16 "#000000" "normal").surfaceW = 32
    ∧ specSurfaceSide "ab".length 16 1 = 256
    ∧ (32 : ℚ) ≠ 256
    ∧ (drawLabel testEnv "ab" "sans-serif" 16 "#000000" "normal").clipWidth = 21
    ∧ testEnv.measureText "normal" 16 "sans-serif" "ab" = 41 / 2
    ∧ ((21 : ℚ)) ≠ 41 / 2 := by
  refine ⟨by decide, ?_, by decide, by decide, by decide, by decide⟩
  show max 256 ((("ab".length : ℕ) : ℚ) * 16) * 1 = 256
  have hlen : ("ab".length : ℕ) = 2 := rfl
  rw [hlen]
  norm_num

/-- **C8 (amended).** `drawLabel` sizes its square surface to
`(len == 0 ? 256 : len × fontSize)` device-independent pixels scaled by
`devicePixelRatio || 1`, and clips the returned bitmap to
`round(measuredTextWidth) × fontSize`. -/
theorem C8_amended (env : CanvasEnv) (text fontFamily : String) (fontSize : ℚ)
    (color fontWeight : String) :
    (drawLabel env text fontFamily fontSize color fontWeight).surfaceW
        = (if text.length = 0 then 256 else (text.length : ℚ) * fontSize)
            * (if env.dpr = 0 then 1 else env.dpr)
    ∧ (drawLabel env text fontFamily fontSize color fontWeight).surfaceH
        = (drawLabel env text fontFamily fontSize color fontWeight).surfaceW
    ∧ (drawLabel env text fontFamily fontSize color fontWeight).clipWidth
        = jsRound (env.measureText fontWeight fontSize fontFamily text)
    ∧ (drawLabel env text fontFamily fontSize color fontWeight).clipHeight
        = fontSize :=
  ⟨rfl, rfl, rfl, rfl⟩

/-- **C9.** If either the longitude or the latitude line list is empty, all
three geometry-source builders return the empty feature collection — the
other (possibly nonempty) axis's lines are discarded entirely, and the
label builder additionally leaves the icon counter and image cache
untouched. -/
theorem C9_empty_axis (lngLines latLines : List GridLine) (mv : Option MapView)
    (t : ℚ) (fmt : String) (style : LabelStyle) (env : CanvasEnv) (ctr : ℕ)
    (images : Images) (h : lngLines = [] ∨ latLines = []) :
    createGridLinesSource lngLines latLines = EMPTY_GEOSJON
    ∧ createTickLinesSource lngLines latLines mv t = EMPTY_GEOSJON
    ∧ createLabelPointsSource lngLines latLines mv t fmt style env ctr images
        = (EMPTY_GEOSJON, ctr, images) := by
  have hlen : lngLines.length = 0 ∨ latLines.length = 0 := by
    rcases h with rfl | rfl
    · exact Or.inl rfl
    · exact Or.inr rfl
  refine ⟨?_, ?_, ?_⟩
  · simp only [createGridLinesSource]
    rw [if_pos hlen]
  · cases mv with
    | none => rfl
    | some m =>
      simp only [createTickLinesSource]
      rw [if_pos hlen]
  · cases mv with
    | none => rfl
    | some m =>
      simp only [createLabelPointsSource]
      rw [if_pos hlen]

/-- Witness for C9: a nonempty longitude list is discarded when the latitude
list is empty. -/
theorem C9_witness :
    (([((0, 0), (0, 1))] : List GridLine) = [] ∨ ([] : List GridLine) = [])
    ∧ createGridLinesSource [((0, 0), (0, 1))] [] = EMPTY_GEOSJON
    ∧ createTickLinesSource [((0, 0), (0, 1))] [] (some testView) 5 = EMPTY_GEOSJON
    ∧ createLabelPointsSource [((0, 0), (0, 1))] [] (some testView) 5 "second"
        testStyle testEnv 7 [] = (EMPTY_GEOSJON, 7, []) :=
  ⟨Or.inr rfl,
   C9_empty_axis [((0, 0), (0, 1))] [] (some testView) 5 "second" testStyle testEnv 7 []
     (Or.inr rfl)⟩

/- ### C10: id generation -/

/-- `Nat.digitChar` renders a digit below 10 as the character whose code is
`48 + digit`. -/
theorem digitChar_val {k : ℕ} (hk : k < 10) : (Nat.digitChar k).toNat - 48 = k := by
  interval_cases k <;> decide

/-- Folding the decimal value over `decDigits n` recovers `n`. -/
theorem decDigits_foldl (n : ℕ) : ∀ acc : ℕ,
    (decDigits n).foldl (fun a c => 10 * a + (c.toNat - 48)) acc
      = acc * 10 ^ (decDigits n).length + n := by
  induction n using Nat.strong_induction_on with
  | _ n ih =>
    intro acc
    by_cases h : n < 10
    · conv_lhs => rw [decDigits, if_pos h]
      conv_rhs => rw [decDigits, if_pos h]
      simp [List.foldl, digitChar_val h]
      ring
    · have hlt : n / 10 < n := Nat.div_lt_self (by omega) (by omega)
      have hLen : (decDigits n).length = (decDigits (n / 10)).length + 1 := by
        conv_lhs => rw [decDigits, if_neg h]
        simp
      conv_lhs => rw [decDigits, if_neg h]
      rw [List.foldl_append, ih (n / 10) hlt acc, hLen]
      simp only [List.foldl, digitChar_val (Nat.mod_lt n (by omega))]
      rw [pow_succ, ← mul_assoc]
      generalize acc * 10 ^ (decDigits (n / 10)).length = Q
      omega

/-- `Nat.toDigitsCore` computes `decDigits` (with the accumulator appended),
for any sufficient fuel. -/
theorem toDigitsCore_eq_decDigits : ∀ (fuel n : ℕ) (ds : List Char), n < fuel →
    Nat.toDigitsCore 10 fuel n ds = decDigits n ++ ds := by
  intro fuel
  induction fuel with
  | zero =>
    intro n ds h
    omega
  | succ fuel ih =>
    intro n ds h
    rw [Nat.toDigitsCore]
    by_cases h10 : n / 10 = 0
    · have hn : n < 10 := by omega
      simp only [h10, if_pos rfl]
      rw [decDigits, if_pos hn, Nat.mod_eq_of_lt hn]
      rfl
    · have hn : ¬ n < 10 := by
        intro hc
        exact h10 (Nat.div_eq_of_lt hc)
      have hfuel : n / 10 < fuel := by
        have hdlt : n / 10 < n := Nat.div_lt_self (by omega) (by omega)
        omega
      simp only [if_neg h10]
      rw [ih (n / 10) _ hfuel]
      conv_rhs => rw [decDigits, if_neg hn]
      rw [List.append_assoc]
      rfl

/-- The characters of `Nat.repr n` are exactly `decDigits n`. -/
theorem natRepr_data (n : ℕ) : (Nat.repr n).data = decDigits n := by
  show ((Nat.toDigits 10 n).asString).data = decDigits n
  rw [show Nat.toDigits 10 n = Nat.toDigitsCore 10 (n + 1) n [] from rfl]
  rw [toDigitsCore_eq_decDigits (n + 1) n [] (by omega)]
  rw [List.append_nil]
  rfl

theorem decVal_decDigits (n : ℕ) : decVal (decDigits n) = n := by
  have h := decDigits_foldl n 0
  simpa [decVal] using h

/-- Decimal rendering of naturals is injective. -/
theorem nat_toString_inj {m n : ℕ} (h : toString m = toString n) : m = n := by
  have hd : (Nat.repr m).data = (Nat.repr n).data := by
    rw [show toString m = Nat.repr m from rfl, show toString n = Nat.repr n from rfl] at h
    rw [h]
  rw [natRepr_data, natRepr_data] at hd
  have hv := congrArg decVal hd
  rwa [decVal_decDigits, decVal_decDigits] at hv

/-- Two prefixed ids with different characters among the first three are
different, whatever their suffixes. -/
theorem ne_of_take3 (p q s t : String) (hp : 3 ≤ p.data.length)
    (hq : 3 ≤ q.data.length) (h : p.data.take 3 ≠ q.data.take 3) :
    p ++ s ≠ q ++ t := by
  intro he
  apply h
  have hd : (p ++ s).data = (q ++ t).data := by rw [he]
  rw [String.data_append, String.data_append] at hd
  have h3 := congrArg (List.take 3) hd
  rwa [List.take_append_of_le_length hp, List.take_append_of_le_length hq] at h3

/-- Two ids with the same prefix and different counters are different. -/
theorem ne_of_suffix_counter (p : String) {m n : ℕ} (h : m ≠ n) :
    p ++ toString m ≠ p ++ toString n := by
  intro he
  apply h
  have hd : (p ++ toString m).data = (p ++ toString n).data := by rw [he]
  rw [String.data_append, String.data_append] at hd
  have hc := List.append_cancel_left hd
  exact nat_toString_inj (by
    have : (toString m : String) = ⟨(toString m).data⟩ := rfl
    rw [show (toString m : String).data = (toString n : String).data from hc] at this
    exact this.trans rfl)

/-- First-call shape of `initLayersId`: four successive counter values. -/
theorem initLayersId_none (c : ℕ) :
    initLayersId none c =
      ({ grid := "grid_" ++ toString c,
         tick := "tick_" ++ toString (c + 1),
         border := "border_" ++ toString (c + 2),
         label := "label_" ++ toString (c + 3) }, c + 4) := rfl

theorem makeIconId_eq (c : ℕ) :
    makeIconId c = ("graticule-icon-" ++ toString c, c + 1) := rfl

/-- **C10.** `uniqueId` returns strictly increasing values starting from 1
and is never reset; hence the four ids of one `initLayersId` call are
pairwise distinct, icon ids with different counter values are distinct,
layer ids are always distinct from icon ids, and layer ids of the same kind
from different attach cycles are distinct. -/
theorem C10_uniqueId_distinct :
    (firstUniqueId = 1 ∧ ∀ c : ℕ, uniqueId c = (c, c + 1))
    ∧ (∀ c k : ℕ, uniqueIdState c k = c + k)
    ∧ (∀ c k l : ℕ, k < l →
        (uniqueId (uniqueIdState c k)).1 < (uniqueId (uniqueIdState c l)).1)
    ∧ (∀ c : ℕ,
        (initLayersId none c).1.grid ≠ (initLayersId none c).1.tick
        ∧ (initLayersId none c).1.grid ≠ (initLayersId none c).1.border
        ∧ (initLayersId none c).1.grid ≠ (initLayersId none c).1.label
        ∧ (initLayersId none c).1.tick ≠ (initLayersId none c).1.border
        ∧ (initLayersId none c).1.tick ≠ (initLayersId none c).1.label
        ∧ (initLayersId none c).1.border ≠ (initLayersId none c).1.label)
    ∧ (∀ m n : ℕ, m ≠ n → (makeIconId m).1 ≠ (makeIconId n).1)
    ∧ (∀ m n : ℕ,
        (initLayersId none m).1.grid ≠ (makeIconId n).1
        ∧ (initLayersId none m).1.tick ≠ (makeIconId n).1
        ∧ (initLayersId none m).1.border ≠ (makeIconId n).1
        ∧ (initLayersId none m).1.label ≠ (makeIconId n).1)
    ∧ (∀ m n : ℕ, m ≠ n →
        (initLayersId none m).1.grid ≠ (initLayersId none n).1.grid
        ∧ (initLayersId none m).1.tick ≠ (initLayersId none n).1.tick
        ∧ (initLayersId none m).1.border ≠ (initLayersId none n).1.border
        ∧ (initLayersId none m).1.label ≠ (initLayersId none n).1.label) := by
  have hstate : ∀ c k : ℕ, uniqueIdState c k = c + k := by
    intro c k
    induction k with
    | zero => rfl
    | succ k ih =>
      show (uniqueId (uniqueIdState c k)).2 = c + (k + 1)
      rw [ih]
      rfl
  refine ⟨⟨rfl, fun c => rfl⟩, hstate, ?_, ?_, ?_, ?_, ?_⟩
  · intro c k l hkl
    show uniqueIdState c k < uniqueIdState c l
    rw [hstate, hstate]
    omega
  · intro c
    simp only [initLayersId_none]
    exact ⟨ne_of_take3 _ _ _ _ (by decide) (by decide) (by decide),
      ne_of_take3 _ _ _ _ (by decide) (by decide) (by decide),
      ne_of_take3 _ _ _ _ (by decide) (by decide) (by decide),
      ne_of_take3 _ _ _ _ (by decide) (by decide) (by decide),
      ne_of_take3 _ _ _ _ (by decide) (by decide) (by decide),
      ne_of_take3 _ _ _ _ (by decide) (by decide) (by decide)⟩
  · intro m n hmn
    simp only [makeIconId_eq]
    exact ne_of_suffix_counter _ hmn
  · intro m n
    simp only [initLayersId_none, makeIconId_eq]
    exact ⟨ne_of_take3 _ _ _ _ (by decide) (by decide) (by decide),
      ne_of_take3 _ _ _ _ (by decide) (by decide) (by decide),
      ne_of_take3 _ _ _ _ (by decide) (by decide) (by decide),
      ne_of_take3 _ _ _ _ (by decide) (by decide) (by decide)⟩
  · intro m n hmn
    simp only [initLayersId_none]
    exact ⟨ne_of_suffix_counter _ hmn,
      ne_of_suffix_counter _ (by omega),
      ne_of_suffix_counter _ (by omega),
      ne_of_suffix_counter _ (by omega)⟩

/-- Witness for C10 at concrete counter values. -/
theorem C10_witness :
    ((0 : ℕ) < 1 ∧ (1 : ℕ) ≠ 2)
    ∧ (uniqueId (uniqueIdState 1 0)).1 < (uniqueId (uniqueIdState 1 1)).1
    ∧ (makeIconId 1).1 ≠ (makeIconId 2).1
    ∧ (initLayersId none 1).1.grid ≠ (initLayersId none 2).1.grid := by
  refine ⟨⟨by decide, by decide⟩, ?_, ?_, ?_⟩
  · exact C10_uniqueId_distinct.2.2.1 1 0 1 (by decide)
  · exact C10_uniqueId_distinct.2.2.2.2.1 1 2 (by decide)
  · exact (C10_uniqueId_distinct.2.2.2.2.2.2 1 2 (by decide)).1

/- ### C1: registry lemmas -/

theorem getEntry_append_of_none {α : Type} {l : List (String × α)} {id : String}
    (h : getEntry l id = none) (v : α) :
    getEntry (l ++ [(id, v)]) id = some v := by
  induction l with
  | nil => simp [getEntry]
  | cons p l ih =>
    rw [List.cons_append]
    rw [getEntry] at h ⊢
    by_cases hp : p.1 = id
    · rw [if_pos hp] at h
      exact absurd h (by simp)
    · rw [if_neg hp] at h ⊢
      exact ih h

theorem getEntry_append_frame {α : Type} (l : List (String × α)) {x id : String}
    (h : x ≠ id) (v : α) :
    getEntry (l ++ [(id, v)]) x = getEntry l x := by
  induction l with
  | nil => simp [getEntry, Ne.symm h]
  | cons p l ih =>
    rw [List.cons_append, getEntry, getEntry]
    by_cases hp : p.1 = x
    · rw [if_pos hp, if_pos hp]
    · rw [if_neg hp, if_neg hp]
      exact ih

theorem getEntry_setEntry_self {α : Type} (l : List (String × α)) (id : String) (v : α) :
    getEntry (setEntry l id v) id = (getEntry l id).map fun _ => v := by
  induction l with
  | nil => simp [getEntry, setEntry]
  | cons p l ih =>
    rw [setEntry]
    by_cases hp : p.1 = id
    · simp [getEntry, hp]
    · rw [if_neg hp, getEntry, getEntry, if_neg hp, if_neg hp]
      exact ih

theorem getEntry_setEntry_frame {α : Type} (l : List (String × α)) {x id : String}
    (h : x ≠ id) (v : α) :
    getEntry (setEntry l id v) x = getEntry l x := by
  induction l with
  | nil => simp [getEntry, setEntry]
  | cons p l ih =>
    rw [setEntry]
    by_cases hp : p.1 = id
    · have hx : ¬ p.1 = x := by
        rw [hp]
        exact Ne.symm h
      rw [if_pos hp, getEntry, getEntry]
      simp only [hx, if_false, if_neg hx]
      exact ih
    · rw [if_neg hp, getEntry, getEntry]
      by_cases hx : p.1 = x
      · rw [if_pos hx, if_pos hx]
      · rw [if_neg hx, if_neg hx]
        exact ih

theorem getEntry_removeEntry_self {α : Type} (l : List (String × α)) (id : String) :
    getEntry (removeEntry l id) id = none := by
  induction l with
  | nil => simp [getEntry, removeEntry]
  | cons p l ih =>
    rw [removeEntry]
    by_cases hp : p.1 = id
    · rw [if_pos hp]
      exact ih
    · rw [if_neg hp, getEntry, if_neg hp]
      exact ih

theorem getEntry_removeEntry_frame {α : Type} (l : List (String × α)) {x id : String}
    (h : x ≠ id) :
    getEntry (removeEntry l id) x = getEntry l x := by
  induction l with
  | nil => simp [getEntry, removeEntry]
  | cons p l ih =>
    rw [removeEntry, getEntry]
    by_cases hp : p.1 = id
    · rw [if_pos hp]
      have hx : ¬ p.1 = x := by
        rw [hp]
        exact Ne.symm h
      rw [if_neg hx]
      exact ih
    · rw [if_neg hp, getEntry]
      by_cases hx : p.1 = x
      · rw [if_pos hx, if_pos hx]
      · rw [if_neg hx, if_neg hx]
        exact ih

theorem keyCount_append_self {α : Type} (l : List (String × α)) (id : String) (v : α) :
    keyCount (l ++ [(id, v)]) id = keyCount l id + 1 := by
  induction l with
  | nil => simp [keyCount]
  | cons p l ih =>
    rw [List.cons_append, keyCount, keyCount, ih]
    omega

theorem keyCount_append_frame {α : Type} (l : List (String × α)) {x id : String}
    (h : x ≠ id) (v : α) :
    keyCount (l ++ [(id, v)]) x = keyCount l x := by
  induction l with
  | nil => simp [keyCount, Ne.symm h]
  | cons p l ih =>
    rw [List.cons_append, keyCount, keyCount, ih]

theorem keyCount_setEntry {α : Type} (l : List (String × α)) (x id : String) (v : α) :
    keyCount (setEntry l id v) x = keyCount l x := by
  induction l with
  | nil => simp [keyCount, setEntry]
  | cons p l ih =>
    rw [setEntry, keyCount, keyCount, ih]
    by_cases hp : p.1 = id
    · rw [if_pos hp]
    · rw [if_neg hp]

theorem keyCount_removeEntry_self {α : Type} (l : List (String × α)) (id : String) :
    keyCount (removeEntry l id) id = 0 := by
  induction l with
  | nil => simp [keyCount, removeEntry]
  | cons p l ih =>
    rw [removeEntry]
    by_cases hp : p.1 = id
    · rw [if_pos hp]
      exact ih
    · rw [if_neg hp, keyCount, if_neg hp, ih]

theorem keyCount_removeEntry_frame {α : Type} (l : List (String × α)) {x id : String}
    (h : x ≠ id) :
    keyCount (removeEntry l id) x = keyCount l x := by
  induction l with
  | nil => simp [keyCount, removeEntry]
  | cons p l ih =>
    rw [removeEntry, keyCount]
    by_cases hp : p.1 = id
    · rw [if_pos hp, ih]
      have hx : ¬ p.1 = x := by
        rw [hp]
        exact Ne.symm h
      rw [if_neg hx]
      omega
    · rw [if_neg hp, keyCount, ih]

theorem getEntry_none_iff_keyCount_zero {α : Type} (l : List (String × α)) (id : String) :
    getEntry l id = none ↔ keyCount l id = 0 := by
  induction l with
  | nil => simp [getEntry, keyCount]
  | cons p l ih =>
    rw [getEntry, keyCount]
    by_cases hp : p.1 = id
    · rw [if_pos hp, if_pos hp]
      simp
    · rw [if_neg hp, if_neg hp]
      simpa using ih

/- ### C1: reconciliation-step lemmas -/

theorem sync_counter (vis : Bool) (id : String) (fc : FeatureCollection)
    (desc : LayerDesc) (w : World) :
    (syncSublayer vis id fc desc w).counter = w.counter := by
  cases vis <;> simp only [syncSublayer, Bool.false_eq_true, eq_self_iff_true, if_true, if_false] <;> split <;> split <;> rfl

theorem sync_images (vis : Bool) (id : String) (fc : FeatureCollection)
    (desc : LayerDesc) (w : World) :
    (syncSublayer vis id fc desc w).images = w.images := by
  cases vis <;> simp only [syncSublayer, Bool.false_eq_true, eq_self_iff_true, if_true, if_false] <;> split <;> split <;> rfl

theorem sync_sources_frame (vis : Bool) (id : String) (fc : FeatureCollection)
    (desc : LayerDesc) (w : World) {x : String} (h : x ≠ id) :
    getEntry (syncSublayer vis id fc desc w).sources x = getEntry w.sources x := by
  cases vis <;> simp only [syncSublayer, Bool.false_eq_true, eq_self_iff_true, if_true, if_false] <;> split <;> split <;>
    try dsimp only <;>
    first
      | rfl
      | rw [getEntry_setEntry_frame _ h]
      | rw [getEntry_append_frame _ h]
      | rw [getEntry_removeEntry_frame _ h]

theorem sync_layers_frame (vis : Bool) (id : String) (fc : FeatureCollection)
    (desc : LayerDesc) (w : World) {x : String} (h : x ≠ id) :
    getEntry (syncSublayer vis id fc desc w).layers x = getEntry w.layers x := by
  cases vis <;> simp only [syncSublayer, Bool.false_eq_true, eq_self_iff_true, if_true, if_false] <;> split <;> split <;>
    try dsimp only <;>
    first
      | rfl
      | rw [getEntry_append_frame _ h]
      | rw [getEntry_removeEntry_frame _ h]

theorem sync_sources_count_frame (vis : Bool) (id : String) (fc : FeatureCollection)
    (desc : LayerDesc) (w : World) {x : String} (h : x ≠ id) :
    keyCount (syncSublayer vis id fc desc w).sources x = keyCount w.sources x := by
  cases vis <;> simp only [syncSublayer, Bool.false_eq_true, eq_self_iff_true, if_true, if_false] <;> split <;> split <;>
    try dsimp only <;>
    first
      | rfl
      | rw [keyCount_setEntry]
      | rw [keyCount_append_frame _ h]
      | rw [keyCount_removeEntry_frame _ h]

theorem sync_layers_count_frame (vis : Bool) (id : String) (fc : FeatureCollection)
    (desc : LayerDesc) (w : World) {x : String} (h : x ≠ id) :
    keyCount (syncSublayer vis id fc desc w).layers x = keyCount w.layers x := by
  cases vis <;> simp only [syncSublayer, Bool.false_eq_true, eq_self_iff_true, if_true, if_false] <;> split <;> split <;>
    try dsimp only <;>
    first
      | rfl
      | rw [keyCount_append_frame _ h]
      | rw [keyCount_removeEntry_frame _ h]

theorem sync_sources_self_true (id : String) (fc : FeatureCollection)
    (desc : LayerDesc) (w : World) :
    getEntry (syncSublayer true id fc desc w).sources id = some fc := by
  simp only [syncSublayer, eq_self_iff_true, if_true]
  split <;> split <;> try dsimp only
  case _ hs _ =>
    obtain ⟨v, hv⟩ := Option.isSome_iff_exists.mp hs
    rw [getEntry_setEntry_self, hv]
    rfl
  case _ hs _ =>
    obtain ⟨v, hv⟩ := Option.isSome_iff_exists.mp hs
    rw [getEntry_setEntry_self, hv]
    rfl
  case _ hs _ =>
    rw [getEntry_append_of_none (Option.not_isSome_iff_eq_none.mp hs)]
  case _ hs _ =>
    rw [getEntry_append_of_none (Option.not_isSome_iff_eq_none.mp hs)]

theorem sync_sources_self_false (id : String) (fc : FeatureCollection)
    (desc : LayerDesc) (w : World) :
    getEntry (syncSublayer false id fc desc w).sources id = none := by
  simp only [syncSublayer, Bool.false_eq_true, if_false]
  split <;> split <;> try dsimp only
  case _ hs _ =>
    rw [getEntry_removeEntry_self]
  case _ hs _ =>
    rw [getEntry_removeEntry_self]
  case _ hs _ =>
    exact Option.not_isSome_iff_eq_none.mp hs
  case _ hs _ =>
    exact Option.not_isSome_iff_eq_none.mp hs

theorem sync_sources_count (vis : Bool) (id : String) (fc : FeatureCollection)
    (desc : LayerDesc) (w : World) (h : keyCount w.sources id ≤ 1) :
    keyCount (syncSublayer vis id fc desc w).sources id = if vis then 1 else 0 := by
  have hiff := getEntry_none_iff_keyCount_zero w.sources id
  cases vis <;> simp only [syncSublayer, Bool.false_eq_true, eq_self_iff_true, if_true, if_false] <;> split <;> split <;>
    try dsimp only
  case _ hs _ =>
    rw [keyCount_removeEntry_self]
  case _ hs _ =>
    rw [keyCount_removeEntry_self]
  case _ hs _ =>
    rw [hiff.mp (Option.not_isSome_iff_eq_none.mp hs)]
  case _ hs _ =>
    rw [hiff.mp (Option.not_isSome_iff_eq_none.mp hs)]
  case _ hs _ =>
    rw [keyCount_setEntry]
    have : ¬ getEntry w.sources id = none := by
      intro hc
      rw [hc] at hs
      simp at hs
    have h1 : keyCount w.sources id ≠ 0 := fun hc => this (hiff.mpr hc)
    omega
  case _ hs _ =>
    rw [keyCount_setEntry]
    have : ¬ getEntry w.sources id = none := by
      intro hc
      rw [hc] at hs
      simp at hs
    have h1 : keyCount w.sources id ≠ 0 := fun hc => this (hiff.mpr hc)
    omega
  case _ hs _ =>
    rw [keyCount_append_self, hiff.mp (Option.not_isSome_iff_eq_none.mp hs)]
  case _ hs _ =>
    rw [keyCount_append_self, hiff.mp (Option.not_isSome_iff_eq_none.mp hs)]

theorem sync_layers_count (vis : Bool) (id : String) (fc : FeatureCollection)
    (desc : LayerDesc) (w : World) (h : keyCount w.layers id ≤ 1) :
    keyCount (syncSublayer vis id fc desc w).layers id = if vis then 1 else 0 := by
  have hiff := getEntry_none_iff_keyCount_zero w.layers id
  cases vis <;> simp only [syncSublayer, Bool.false_eq_true, eq_self_iff_true, if_true, if_false] <;> split <;> split <;>
    try dsimp only
  case _ hs hl =>
    rw [keyCount_removeEntry_self]
  case _ hs hl =>
    exact hiff.mp (Option.not_isSome_iff_eq_none.mp hl)
  case _ hs hl =>
    rw [keyCount_removeEntry_self]
  case _ hs hl =>
    exact hiff.mp (Option.not_isSome_iff_eq_none.mp hl)
  case _ hs hl =>
    have : ¬ getEntry w.layers id = none := by
      intro hc
      rw [hc] at hl
      simp at hl
    have h1 : keyCount w.layers id ≠ 0 := fun hc => this (hiff.mpr hc)
    omega
  case _ hs hl =>
    rw [keyCount_append_self, hiff.mp (Option.not_isSome_iff_eq_none.mp hl)]
  case _ hs hl =>
    have : ¬ getEntry w.layers id = none := by
      intro hc
      rw [hc] at hl
      simp at hl
    have h1 : keyCount w.layers id ≠ 0 := fun hc => this (hiff.mpr hc)
    omega
  case _ hs hl =>
    rw [keyCount_append_self, hiff.mp (Option.not_isSome_iff_eq_none.mp hl)]

/- ### C1: reconciliation characterization -/

theorem addLayers_attached (g : Graticule) (ids : LayerIds) (view : MapView)
    (env : CanvasEnv) (w : World) (hids : g.layerIDs = some ids) :
    addLayers g view env w
      = (g, reconcile g ids (computeGrid g.bounds g.interval g.intervalUnit) view env w) := by
  have hg : { g with layerIDs := some ids } = g := by
    cases g
    simp_all
  simp only [addLayers, hids, initLayersId]
  rw [hg]

theorem reconcile_sources_grid (g : Graticule) (ids : LayerIds) (lines : GridLines)
    (view : MapView) (env : CanvasEnv) (w : World)
    (h1 : ids.grid ≠ ids.tick) (h2 : ids.grid ≠ ids.border) (h3 : ids.grid ≠ ids.label) :
    getEntry (reconcile g ids lines view env w).sources ids.grid
      = if g.showGrid then some (createGridLinesSource lines.lngLines lines.latLines)
        else none := by
  simp only [reconcile]
  rw [sync_sources_frame _ _ _ _ _ h3]
  dsimp only
  rw [sync_sources_frame _ _ _ _ _ h2, sync_sources_frame _ _ _ _ _ h1]
  cases hflag : g.showGrid
  · rw [sync_sources_self_false]
    rfl
  · rw [sync_sources_self_true]
    rfl

theorem reconcile_sources_tick (g : Graticule) (ids : LayerIds) (lines : GridLines)
    (view : MapView) (env : CanvasEnv) (w : World)
    (h1 : ids.grid ≠ ids.tick) (h4 : ids.tick ≠ ids.border) (h5 : ids.tick ≠ ids.label) :
    getEntry (reconcile g ids lines view env w).sources ids.tick
      = if g.showTick then
          some (createTickLinesSource lines.lngLines lines.latLines (some view) g.tickLength)
        else none := by
  simp only [reconcile]
  rw [sync_sources_frame _ _ _ _ _ h5]
  dsimp only
  rw [sync_sources_frame _ _ _ _ _ h4]
  cases hflag : g.showTick
  · rw [sync_sources_self_false]
    rfl
  · rw [sync_sources_self_true]
    rfl

theorem reconcile_sources_border (g : Graticule) (ids : LayerIds) (lines : GridLines)
    (view : MapView) (env : CanvasEnv) (w : World)
    (h6 : ids.border ≠ ids.label) :
    getEntry (reconcile g ids lines view env w).sources ids.border
      = if g.showBorder then some (createBorderLinesSource (some g.bounds)) else none := by
  simp only [reconcile]
  rw [sync_sources_frame _ _ _ _ _ h6]
  dsimp only
  cases hflag : g.showBorder
  · rw [sync_sources_self_false]
    rfl
  · rw [sync_sources_self_true]
    rfl

theorem reconcile_sources_label (g : Graticule) (ids : LayerIds) (lines : GridLines)
    (view : MapView) (env : CanvasEnv) (w : World) :
    getEntry (reconcile g ids lines view env w).sources ids.label
      = if g.showLabel then
          some ((createLabelPointsSource lines.lngLines lines.latLines (some view)
            g.tickLength g.labelFormatter g.labelStyle env w.counter w.images).1)
        else none := by
  simp only [reconcile]
  simp only [sync_counter, sync_images]
  cases hflag : g.showLabel
  · rw [sync_sources_self_false]
    rfl
  · rw [sync_sources_self_true]
    simp

theorem reconcile_counter (g : Graticule) (ids : LayerIds) (lines : GridLines)
    (view : MapView) (env : CanvasEnv) (w : World) :
    (reconcile g ids lines view env w).counter
      = if g.showLabel then
          (createLabelPointsSource lines.lngLines lines.latLines (some view)
            g.tickLength g.labelFormatter g.labelStyle env w.counter w.images).2.1
        else w.counter := by
  simp only [reconcile]
  rw [sync_counter]
  simp only [sync_counter, sync_images]
  cases hflag : g.showLabel
  · simp
  · simp

theorem reconcile_counts (g : Graticule) (ids : LayerIds) (lines : GridLines)
    (view : MapView) (env : CanvasEnv) (w : World)
    (h1 : ids.grid ≠ ids.tick) (h2 : ids.grid ≠ ids.border) (h3 : ids.grid ≠ ids.label)
    (h4 : ids.tick ≠ ids.border) (h5 : ids.tick ≠ ids.label) (h6 : ids.border ≠ ids.label)
    (hs1 : keyCount w.sources ids.grid ≤ 1) (hs2 : keyCount w.sources ids.tick ≤ 1)
    (hs3 : keyCount w.sources ids.border ≤ 1) (hs4 : keyCount w.sources ids.label ≤ 1)
    (hl1 : keyCount w.layers ids.grid ≤ 1) (hl2 : keyCount w.layers ids.tick ≤ 1)
    (hl3 : keyCount w.layers ids.border ≤ 1) (hl4 : keyCount w.layers ids.label ≤ 1) :
    (keyCount (reconcile g ids lines view env w).sources ids.grid
        = if g.showGrid then 1 else 0)
    ∧ (keyCount (reconcile g ids lines view env w).sources ids.tick
        = if g.showTick then 1 else 0)
    ∧ (keyCount (reconcile g ids lines view env w).sources ids.border
        = if g.showBorder then 1 else 0)
    ∧ (keyCount (reconcile g ids lines view env w).sources ids.label
        = if g.showLabel then 1 else 0)
    ∧ (keyCount (reconcile g ids lines view env w).layers ids.grid
        = if g.showGrid then 1 else 0)
    ∧ (keyCount (reconcile g ids lines view env w).layers ids.tick
        = if g.showTick then 1 else 0)
    ∧ (keyCount (reconcile g ids lines view env w).layers ids.border
        = if g.showBorder then 1 else 0)
    ∧ (keyCount (reconcile g ids lines view env w).layers ids.label
        = if g.showLabel then 1 else 0) := by
  refine ⟨?_, ?_, ?_, ?_, ?_, ?_, ?_, ?_⟩
  · simp only [reconcile]
    rw [sync_sources_count_frame _ _ _ _ _ h3]
    dsimp only
    rw [sync_sources_count_frame _ _ _ _ _ h2, sync_sources_count_frame _ _ _ _ _ h1]
    exact sync_sources_count _ _ _ _ _ hs1
  · simp only [reconcile]
    rw [sync_sources_count_frame _ _ _ _ _ h5]
    dsimp only
    rw [sync_sources_count_frame _ _ _ _ _ h4]
    apply sync_sources_count
    rw [sync_sources_count_frame _ _ _ _ _ (Ne.symm h1)]
    exact hs2
  · simp only [reconcile]
    rw [sync_sources_count_frame _ _ _ _ _ h6]
    dsimp only
    apply sync_sources_count
    rw [sync_sources_count_frame _ _ _ _ _ (Ne.symm h4),
        sync_sources_count_frame _ _ _ _ _ (Ne.symm h2)]
    exact hs3
  · simp only [reconcile]
    apply sync_sources_count
    dsimp only
    rw [sync_sources_count_frame _ _ _ _ _ (Ne.symm h6),
        sync_sources_count_frame _ _ _ _ _ (Ne.symm h5),
        sync_sources_count_frame _ _ _ _ _ (Ne.symm h3)]
    exact hs4
  · simp only [reconcile]
    rw [sync_layers_count_frame _ _ _ _ _ h3]
    dsimp only
    rw [sync_layers_count_frame _ _ _ _ _ h2, sync_layers_count_frame _ _ _ _ _ h1]
    exact sync_layers_count _ _ _ _ _ hl1
  · simp only [reconcile]
    rw [sync_layers_count_frame _ _ _ _ _ h5]
    dsimp only
    rw [sync_layers_count_frame _ _ _ _ _ h4]
    apply sync_layers_count
    rw [sync_layers_count_frame _ _ _ _ _ (Ne.symm h1)]
    exact hl2
  · simp only [reconcile]
    rw [sync_layers_count_frame _ _ _ _ _ h6]
    dsimp only
    apply sync_layers_count
    rw [sync_layers_count_frame _ _ _ _ _ (Ne.symm h4),
        sync_layers_count_frame _ _ _ _ _ (Ne.symm h2)]
    exact hl3
  · simp only [reconcile]
    apply sync_layers_count
    dsimp only
    rw [sync_layers_count_frame _ _ _ _ _ (Ne.symm h6),
        sync_layers_count_frame _ _ _ _ _ (Ne.symm h5),
        sync_layers_count_frame _ _ _ _ _ (Ne.symm h3)]
    exact hl4

/- ### C1: what is (and is not) identical across consecutive updates -/

/-- The label features produced by `createPoints` are independent of the icon
counter and image cache once their icon ids are erased. -/
theorem createPoints_eraseIcon (m : MapView) (env : CanvasEnv) (fmt : String)
    (style : LabelStyle) :
    ∀ (pts : List ((ℚ × ℚ) × (ℚ × ℚ) × Bool × String)) (c1 c2 : ℕ) (i1 i2 : Images),
      (createPoints m env fmt style pts c1 i1).1.map eraseIcon
        = (createPoints m env fmt style pts c2 i2).1.map eraseIcon := by
  intro pts
  induction pts with
  | nil =>
    intro c1 c2 i1 i2
    rfl
  | cons p rest ih =>
    intro c1 c2 i1 i2
    obtain ⟨lnglat, offset, xAxis, anchor⟩ := p
    simp only [createPoints, List.map_cons]
    congr 1
    exact ih _ _ _ _

/-- A label feature collection with erased icons does not depend on the
counter or cache state it was built from. -/
theorem createLabelPointsSource_eraseIcons (lng lat : List GridLine) (mv : Option MapView)
    (t : ℚ) (fmt : String) (style : LabelStyle) (env : CanvasEnv) (c1 c2 : ℕ)
    (i1 i2 : Images) :
    eraseIcons ((createLabelPointsSource lng lat mv t fmt style env c1 i1).1)
      = eraseIcons ((createLabelPointsSource lng lat mv t fmt style env c2 i2).1) := by
  cases mv with
  | none => rfl
  | some m =>
    simp only [createLabelPointsSource]
    split
    · rfl
    · simp only [eraseIcons]
      exact congrArg FeatureCollection.mk (createPoints_eraseIcon m env fmt style _ c1 c2 i1 i2)

/-- The icon counter advances by one per produced label point. -/
theorem createPoints_counter (m : MapView) (env : CanvasEnv) (fmt : String)
    (style : LabelStyle) :
    ∀ (pts : List ((ℚ × ℚ) × (ℚ × ℚ) × Bool × String)) (c : ℕ) (i : Images),
      (createPoints m env fmt style pts c i).2.1 = c + pts.length := by
  intro pts
  induction pts with
  | nil =>
    intro c i
    rfl
  | cons p rest ih =>
    intro c i
    obtain ⟨lnglat, offset, xAxis, anchor⟩ := p
    simp only [createPoints]
    rw [ih]
    simp [createPoint, makeIconId, uniqueId]
    omega

/-- The first feature of a nonempty label source carries the icon id
allocated from the entry counter value. -/
theorem createLabelPointsSource_firstIcon (x : GridLine) (xs lat : List GridLine)
    (hlat : ¬ lat.length = 0) (m : MapView) (t : ℚ) (fmt : String) (style : LabelStyle)
    (env : CanvasEnv) (c : ℕ) (i : Images) :
    firstIcon ((createLabelPointsSource (x :: xs) lat (some m) t fmt style env c i).1)
      = some ("graticule-icon-" ++ toString c) := by
  simp only [createLabelPointsSource]
  rw [if_neg (by simp [hlat])]
  simp [createPoints, createPoint, makeIconId, uniqueId, firstIcon]

/-- **C1 (amended).** In the attached state, with pairwise-distinct stable ids
initially absent from the host registries, two consecutive `update()` calls
with unchanged configuration and host view (a) leave the configuration and id
table unchanged; (b) store byte-identical grid, tick and border feature
collections; (c) store label feature collections identical up to the freshly
allocated icon ids (same feature count, coordinates, labels, rotations and
anchors — but not byte-identical, see the counterexample); and (d) leave
exactly one source and one rendering layer per enabled stable id and none per
disabled id — never a duplicate. -/
theorem C1_amended (g : Graticule) (ids : LayerIds) (view : MapView) (env : CanvasEnv)
    (w : World) (hids : g.layerIDs = some ids)
    (h1 : ids.grid ≠ ids.tick) (h2 : ids.grid ≠ ids.border) (h3 : ids.grid ≠ ids.label)
    (h4 : ids.tick ≠ ids.border) (h5 : ids.tick ≠ ids.label) (h6 : ids.border ≠ ids.label)
    (hs1 : keyCount w.sources ids.grid = 0) (hs2 : keyCount w.sources ids.tick = 0)
    (hs3 : keyCount w.sources ids.border = 0) (hs4 : keyCount w.sources ids.label = 0)
    (hl1 : keyCount w.layers ids.grid = 0) (hl2 : keyCount w.layers ids.tick = 0)
    (hl3 : keyCount w.layers ids.border = 0) (hl4 : keyCount w.layers ids.label = 0) :
    (addLayers g view env w).1 = g
    ∧ (addLayers (addLayers g view env w).1 view env (addLayers g view env w).2).1 = g
    ∧ getEntry (addLayers (addLayers g view env w).1 view env
          (addLayers g view env w).2).2.sources ids.grid
        = getEntry (addLayers g view env w).2.sources ids.grid
    ∧ getEntry (addLayers (addLayers g view env w).1 view env
          (addLayers g view env w).2).2.sources ids.tick
        = getEntry (addLayers g view env w).2.sources ids.tick
    ∧ getEntry (addLayers (addLayers g view env w).1 view env
          (addLayers g view env w).2).2.sources ids.border
        = getEntry (addLayers g view env w).2.sources ids.border
    ∧ (getEntry (addLayers (addLayers g view env w).1 view env
          (addLayers g view env w).2).2.sources ids.label).map eraseIcons
        = (getEntry (addLayers g view env w).2.sources ids.label).map eraseIcons
    ∧ keyCount (addLayers (addLayers g view env w).1 view env
          (addLayers g view env w).2).2.sources ids.grid
        = (if g.showGrid then 1 else 0)
    ∧ keyCount (addLayers (addLayers g view env w).1 view env
          (addLayers g view env w).2).2.sources ids.tick
        = (if g.showTick then 1 else 0)
    ∧ keyCount (addLayers (addLayers g view env w).1 view env
          (addLayers g view env w).2).2.sources ids.border
        = (if g.showBorder then 1 else 0)
    ∧ keyCount (addLayers (addLayers g view env w).1 view env
          (addLayers g view env w).2).2.sources ids.label
        = (if g.showLabel then 1 else 0)
    ∧ keyCount (addLayers (addLayers g view env w).1 view env
          (addLayers g view env w).2).2.layers ids.grid
        = (if g.showGrid then 1 else 0)
    ∧ keyCount (addLayers (addLayers g view env w).1 view env
          (addLayers g view env w).2).2.layers ids.tick
        = (if g.showTick then 1 else 0)
    ∧ keyCount (addLayers (addLayers g view env w).1 view env
          (addLayers g view env w).2).2.layers ids.border
        = (if g.showBorder then 1 else 0)
    ∧ keyCount (addLayers (addLayers g view env w).1 view env
          (addLayers g view env w).2).2.layers ids.label
        = (if g.showLabel then 1 else 0) := by
  have e1 := addLayers_attached g ids view env w hids
  have e2 : addLayers (addLayers g view env w).1 view env (addLayers g view env w).2
      = (g, reconcile g ids (computeGrid g.bounds g.interval g.intervalUnit) view env
          ((addLayers g view env w).2)) := by
    rw [e1]
    dsimp only
    exact addLayers_attached g ids view env _ hids
  have hle : ∀ b : Bool, (if b then 1 else 0 : ℕ) ≤ 1 := by
    intro b
    cases b <;> simp
  have c1 := reconcile_counts g ids (computeGrid g.bounds g.interval g.intervalUnit)
    view env w h1 h2 h3 h4 h5 h6 (by omega) (by omega) (by omega) (by omega)
    (by omega) (by omega) (by omega) (by omega)
  have c2 := reconcile_counts g ids (computeGrid g.bounds g.interval g.intervalUnit)
    view env ((addLayers g view env w).2) h1 h2 h3 h4 h5 h6
    (by rw [e1]; dsimp only; rw [c1.1]; exact hle _)
    (by rw [e1]; dsimp only; rw [c1.2.1]; exact hle _)
    (by rw [e1]; dsimp only; rw [c1.2.2.1]; exact hle _)
    (by rw [e1]; dsimp only; rw [c1.2.2.2.1]; exact hle _)
    (by rw [e1]; dsimp only; rw [c1.2.2.2.2.1]; exact hle _)
    (by rw [e1]; dsimp only; rw [c1.2.2.2.2.2.1]; exact hle _)
    (by rw [e1]; dsimp only; rw [c1.2.2.2.2.2.2.1]; exact hle _)
    (by rw [e1]; dsimp only; rw [c1.2.2.2.2.2.2.2]; exact hle _)
  refine ⟨by rw [e1], by rw [e2], ?_, ?_, ?_, ?_, ?_, ?_, ?_, ?_, ?_, ?_, ?_, ?_⟩
  · rw [e2, e1]
    dsimp only
    rw [reconcile_sources_grid _ _ _ _ _ _ h1 h2 h3,
        reconcile_sources_grid _ _ _ _ _ _ h1 h2 h3]
  · rw [e2, e1]
    dsimp only
    rw [reconcile_sources_tick _ _ _ _ _ _ h1 h4 h5,
        reconcile_sources_tick _ _ _ _ _ _ h1 h4 h5]
  · rw [e2, e1]
    dsimp only
    rw [reconcile_sources_border _ _ _ _ _ _ h6,
        reconcile_sources_border _ _ _ _ _ _ h6]
  · rw [e2, e1]
    dsimp only
    rw [reconcile_sources_label, reconcile_sources_label]
    cases g.showLabel
    · simp
    · simp only [if_pos rfl, Option.map_some]
      exact congrArg some (createLabelPointsSource_eraseIcons _ _ _ _ _ _ _ _ _ _ _)
  · rw [e2]
    dsimp only
    exact c2.1
  · rw [e2]
    dsimp only
    exact c2.2.1
  · rw [e2]
    dsimp only
    exact c2.2.2.1
  · rw [e2]
    dsimp only
    exact c2.2.2.2.1
  · rw [e2]
    dsimp only
    exact c2.2.2.2.2.1
  · rw [e2]
    dsimp only
    exact c2.2.2.2.2.2.1
  · rw [e2]
    dsimp only
    exact c2.2.2.2.2.2.2.1
  · rw [e2]
    dsimp only
    exact c2.2.2.2.2.2.2.2

/-- The test configuration's grid: one longitude and one latitude line. -/
theorem computeGrid_test :
    computeGrid testGraticule.bounds testGraticule.interval testGraticule.intervalUnit
      = ⟨[((0, 0), (0, 0))], [((0, 0), (0, 0))]⟩ := by
  show computeGrid { west := 0, south := 0, east := 0, north := 0 } 10 .d = _
  refine GridLines.ext' ?_ ?_
  · rw [computeGrid_d_lngLines _ _ (by norm_num)]
    norm_num [List.range_succ]
  · rw [computeGrid_d_latLines _ _ (by norm_num)]
    norm_num [List.range_succ]

unseal Rat.mul Rat.inv Rat.add Rat.sub in
/-- **C1 counterexample.** Two consecutive `update()` calls in the attached
state with unchanged configuration and host view do NOT produce
byte-identical label feature collections: every label point allocates a
fresh icon id from the never-reset counter, so the second call stores a
label source whose `icon` properties differ from the first call's. -/
theorem C1_counterexample :
    getEntry (addLayers (addLayers testGraticule testView testEnv testWorld).1 testView
        testEnv (addLayers testGraticule testView testEnv testWorld).2).2.sources
        testIds.label
      ≠ getEntry (addLayers testGraticule testView testEnv testWorld).2.sources
        testIds.label := by
  have hids : testGraticule.layerIDs = some testIds := rfl
  have e1 := addLayers_attached testGraticule testIds testView testEnv testWorld hids
  have e2 : addLayers (addLayers testGraticule testView testEnv testWorld).1 testView
        testEnv (addLayers testGraticule testView testEnv testWorld).2
      = (testGraticule, reconcile testGraticule testIds
          (computeGrid testGraticule.bounds testGraticule.interval
            testGraticule.intervalUnit) testView testEnv
          ((addLayers testGraticule testView testEnv testWorld).2)) := by
    rw [e1]
    dsimp only
    exact addLayers_attached testGraticule testIds testView testEnv _ hids
  have hctr : (reconcile testGraticule testIds
      (⟨[((0, 0), (0, 0))], [((0, 0), (0, 0))]⟩ : GridLines) testView testEnv
      testWorld).counter = 9 := by
    rw [reconcile_counter]
    decide
  rw [e2, e1]
  dsimp only
  rw [reconcile_sources_label, reconcile_sources_label, computeGrid_test]
  simp only [show testGraticule.showLabel = true from rfl, eq_self_iff_true, if_true]
  rw [hctr]
  intro heq
  have hFC := Option.some.inj heq
  have hfi := congrArg firstIcon hFC
  rw [createLabelPointsSource_firstIcon _ _ _ (by decide),
      createLabelPointsSource_firstIcon _ _ _ (by decide)] at hfi
  have hs := Option.some.inj hfi
  exact absurd hs (ne_of_suffix_counter "graticule-icon-" (by decide))

/-- Witness for the amended C1 at the concrete test configuration. -/
theorem C1_amended_witness :
    (testGraticule.layerIDs = some testIds
      ∧ testIds.grid ≠ testIds.tick ∧ testIds.grid ≠ testIds.border
      ∧ testIds.grid ≠ testIds.label ∧ testIds.tick ≠ testIds.border
      ∧ testIds.tick ≠ testIds.label ∧ testIds.border ≠ testIds.label
      ∧ keyCount testWorld.sources testIds.label = 0
      ∧ keyCount testWorld.layers testIds.label = 0)
    ∧ (addLayers testGraticule testView testEnv testWorld).1 = testGraticule
    ∧ (getEntry (addLayers (addLayers testGraticule testView testEnv testWorld).1 testView
          testEnv (addLayers testGraticule testView testEnv testWorld).2).2.sources
          testIds.label).map eraseIcons
        = (getEntry (addLayers testGraticule testView testEnv
            testWorld).2.sources testIds.label).map eraseIcons
    ∧ keyCount (addLayers (addLayers testGraticule testView testEnv testWorld).1 testView
          testEnv (addLayers testGraticule testView testEnv testWorld).2).2.sources
          testIds.label
        = (if testGraticule.showLabel then 1 else 0) := by
  have h := C1_amended testGraticule testIds testView testEnv testWorld rfl
    (by decide) (by decide) (by decide) (by decide) (by decide) (by decide)
    rfl rfl rfl rfl rfl rfl rfl rfl
  exact ⟨⟨rfl, by decide, by decide, by decide, by decide, by decide, by decide, rfl, rfl⟩,
    h.1, h.2.2.2.2.2.1, h.2.2.2.2.2.2.2.2.2.1⟩
